import Mathlib

/-!
ServoDrill firmware: the calibration and operation controller.

A shallow embedding of `ServoDrill/Firmware/servo_drill.cpp` and
`ServoDrill/Firmware/state_machine.h`.

Modelling conventions.

* C `float` / `double` quantities are rationals (exact arithmetic); the rounding of the
  duty computation is modelled apart, by `servoPuToDutyFloat`.
* `uint32_t` quantities are naturals, every arithmetic result reduced modulo `2 ^ 32`.
* C `int` quantities are integers.
* All global objects of the translation unit (the hardware handles, `currentLedColor`,
  `servoPot`, `stateMachine`, the function-static `lastPot`) are fields of one record
  `Config`.  The hardware inputs (`potInput`, `buttonInput`, the tick counter read by
  `milliseconds()`) are fields too; the environment changes them between calls.
* `PwmOut` is an ideal register: `servo.read()` returns the value last given to
  `servo.write`.
* Serial diagnostics (`puts`, `printf`, `printState`) are not modelled.  The field `trace`
  records, in order, every `servo.write`, every call of `ledColor`, every
  `ThisThread::sleep_for` and every invocation of a state handler by
  `StateMachine::dispatch`.
* The preprocessor symbol `REVERSE_MOTION` is not defined in the sources; it is a
  parameter of every function that depends on it.
-/

namespace ServoDrill

/-! ## Constants and enumerations -/

/-- Macro SERVO_PWM_MIN_PU, fully clockwise. -/
def SERVO_PWM_MIN_PU : ℚ := 0.5 / 20.0

/-- Macro SERVO_PWM_MAX_PU, fully counter-clockwise. -/
def SERVO_PWM_MAX_PU : ℚ := 1.7 / 20.0

/-- Macro SERVO_PWM_SCALE. -/
def SERVO_PWM_SCALE : ℚ := (SERVO_PWM_MAX_PU - SERVO_PWM_MIN_PU)

/-- Enumerator BUTTON_PRESSED of the anonymous I/O enum. -/
def BUTTON_PRESSED : Int := 0

/-- Enumerator BUTTON_RELEASED of the anonymous I/O enum. -/
def BUTTON_RELEASED : Int := 1

/-- Enumerator LED_ON of the anonymous I/O enum. -/
def LED_ON : Int := 0

/-- Enumerator LED_OFF of the anonymous I/O enum. -/
def LED_OFF : Int := 1

/-- Width of `uint32_t`. -/
def UINT32_MOD : Nat := 2 ^ 32

/-- Constant SDSM::BUTTON_DEBOUNCE_TIMEOUT. -/
def BUTTON_DEBOUNCE_TIMEOUT : Nat := 10

/-- Constant SDSM::BUTTON_SHORT_TIMEOUT. -/
def BUTTON_SHORT_TIMEOUT : Nat := 1000

/-- The enum LedColor. -/
inductive LedColor where
  | LC_BLACK
  | LC_RED
  | LC_GREEN
  | LC_BLUE
  | LC_YELLOW
  | LC_CYAN
  | LC_MAGENTA
  | LC_WHITE
  deriving DecidableEq, Repr

/-- Numeric value of each LedColor enumerator. -/
def LedColor.val : LedColor → Nat
  | .LC_BLACK => 0
  | .LC_RED => 1
  | .LC_GREEN => 2
  | .LC_BLUE => 4
  | .LC_YELLOW => 1 + 2
  | .LC_CYAN => 2 + 4
  | .LC_MAGENTA => 4 + 1
  | .LC_WHITE => 1 + 2 + 4

/-- The events of state_machine::SMEvent followed by those of SDSM::SDSM_Event
(EV_POLL has the value of EV_USER). -/
inductive Event where
  | EV_INIT
  | EV_ENTRY
  | EV_EXIT
  | EV_TIMER
  | EV_POLL
  | EV_BUTTON_SHORT_PRESS
  | EV_BUTTON_LONG_PRESS
  deriving DecidableEq, Repr

/-- The six state handler functions a `State` pointer can designate. -/
inductive State where
  | s_opening
  | s_setting_minimum
  | s_setting_maximum
  | s_driving_to_minimum
  | s_operational
  | s_paused
  deriving DecidableEq, Repr

/-- Observable actions, in program order. -/
inductive IOAct where
  | servoWrite (duty : ℚ)
  | ledWrite (color : LedColor)
  | sleep_for (ms : Nat)
  | handler (s : State) (ev : Event)
  deriving DecidableEq, Repr

/-- All global state of the firmware. -/
structure Config where
  /-- Analog input potInput: the value `pot_.read()` returns. -/
  potInput : ℚ
  /-- Digital input buttonInput: the value `buttonInput.read()` returns. -/
  buttonInput : Int
  /-- The tick counter returned by `milliseconds()`. -/
  TickCount : Nat
  /-- Duty register of the PwmOut servo. -/
  servo : ℚ
  redLed : Int
  greenLed : Int
  blueLed : Int
  currentLedColor : LedColor
  servoMin_ : ℚ
  servoMax_ : ℚ
  servoRange_ : ℚ
  currentPosition_ : ℚ
  currentPot_ : ℚ
  /-- Function-static variable of ServoPot::setServoFromPot. -/
  lastPot : ℚ
  timeout_ : Nat
  currentState_ : Option State
  buttonDown_ : Nat
  buttonUp_ : Nat
  lastButtonState_ : Int
  buttonDebouncingEnd_ : Nat
  minimumPosition_ : ℚ
  maximumPosition_ : ℚ
  trace : List IOAct
  deriving DecidableEq, Repr

/-! ## Indicator -/

/-- Function ledColor: set the RGB LED to the given colour. -/
def ledColor (c : Config) (color : LedColor) : Config :=
  { c with
    currentLedColor := color
    redLed := if (color.val &&& LedColor.LC_RED.val) ≠ 0 then LED_ON else LED_OFF
    greenLed := if (color.val &&& LedColor.LC_GREEN.val) ≠ 0 then LED_ON else LED_OFF
    blueLed := if (color.val &&& LedColor.LC_BLUE.val) ≠ 0 then LED_ON else LED_OFF
    trace := c.trace ++ [IOAct.ledWrite color] }

/-- Function errorFlash: show red for 400 ms, then the colour shown before. -/
def errorFlash (c : Config) : Config :=
  let orig := c.currentLedColor
  let c1 := ledColor c LedColor.LC_RED
  let c2 := { c1 with trace := c1.trace ++ [IOAct.sleep_for 400] }
  ledColor c2 orig

/-! ## ServoPot -/

/-- Static member ServoPot::servoPuToDuty. -/
def servoPuToDuty (REVERSE_MOTION : Bool) (pu : ℚ) : ℚ :=
  if REVERSE_MOTION then ((1.0 - pu) * SERVO_PWM_SCALE) + SERVO_PWM_MIN_PU
  else (pu * SERVO_PWM_SCALE) + SERVO_PWM_MIN_PU

/-- Static member ServoPot::servoDutyToPu. -/
def servoDutyToPu (REVERSE_MOTION : Bool) (duty : ℚ) : ℚ :=
  if REVERSE_MOTION then 1.0 - ((duty - SERVO_PWM_MIN_PU) / SERVO_PWM_SCALE)
  else ((duty - SERVO_PWM_MIN_PU) / SERVO_PWM_SCALE)

/-- Member ServoPot::reset. -/
def ServoPot.reset (c : Config) : Config :=
  { c with servoMin_ := 0.0, servoMax_ := 1.0, servoRange_ := 1.0, currentPosition_ := 0.0 }

/-- Member ServoPot::setServoMinimum. -/
def ServoPot.setServoMinimum (c : Config) (min : ℚ) : Config :=
  { c with servoMin_ := min, servoRange_ := c.servoMax_ - min }

/-- Member ServoPot::setServoMaximum. -/
def ServoPot.setServoMaximum (c : Config) (max : ℚ) : Config :=
  { c with servoMax_ := max, servoRange_ := max - c.servoMin_ }

/-- Member ServoPot::servoPuPosition. -/
def ServoPot.servoPuPosition (REVERSE_MOTION : Bool) (c : Config) : ℚ :=
  servoDutyToPu REVERSE_MOTION c.servo

/-- Member ServoPot::relativePosition: pu scaled and offset to the current servo range. -/
def ServoPot.relativePosition (c : Config) (pu : ℚ) : ℚ :=
  pu * c.servoRange_ + c.servoMin_

/-- Member ServoPot::positionServo. -/
def ServoPot.positionServo (REVERSE_MOTION : Bool) (c : Config) (pos : ℚ) : Config :=
  let duty := servoPuToDuty REVERSE_MOTION (ServoPot.relativePosition c pos)
  let c1 := { c with servo := duty, trace := c.trace ++ [IOAct.servoWrite duty] }
  if pos ≠ c1.currentPosition_ then { c1 with currentPosition_ := pos } else c1

/-- Member ServoPot::readPot: the reading, and the configuration with currentPot_ set. -/
def ServoPot.readPot (c : Config) : ℚ × Config :=
  (c.potInput, { c with currentPot_ := c.potInput })

/-- Member ServoPot::setServoFromPot. -/
def ServoPot.setServoFromPot (REVERSE_MOTION : Bool) (c : Config) : Config :=
  let r := ServoPot.readPot c
  let potRelative := r.1
  let c1 := r.2
  if potRelative ≠ c1.lastPot then
    let c2 := ServoPot.positionServo REVERSE_MOTION c1 potRelative
    { c2 with lastPot := potRelative }
  else c1

/-- Function initializeIO (the tick counter set-up is hardware glue). -/
def initializeIO (REVERSE_MOTION : Bool) (c : Config) : Config :=
  let c1 := ledColor c LedColor.LC_BLACK
  ServoPot.positionServo REVERSE_MOTION c1 0.0

/-! ## StateMachine and SDSM -/

/-- Member StateMachine::stopTimer. -/
def StateMachine.stopTimer (c : Config) : Config :=
  { c with timeout_ := 0 }

/-- Nesting rank of an event: the user events are dispatched from outside, the others
also from within a transition. -/
def Event.rank : Event → Nat
  | .EV_POLL => 1
  | .EV_BUTTON_SHORT_PRESS => 1
  | .EV_BUTTON_LONG_PRESS => 1
  | _ => 0

mutual

/-- Member StateMachine::changeStateTo (the macro CHANGE_STATE_TO calls it). -/
def StateMachine.changeStateTo (REVERSE_MOTION : Bool) (c : Config) (nextState : State) :
    Config :=
  if some nextState = c.currentState_ then c
  else
    let c1 := StateMachine.dispatch REVERSE_MOTION c Event.EV_EXIT
    let c2 := StateMachine.stopTimer c1
    let c3 := { c2 with currentState_ := some nextState }
    StateMachine.dispatch REVERSE_MOTION c3 Event.EV_ENTRY
termination_by 3
decreasing_by all_goals decide

/-- Member StateMachine::dispatch: call the current handler, if any. -/
def StateMachine.dispatch (REVERSE_MOTION : Bool) (c : Config) (ev : Event) : Config :=
  match c.currentState_ with
  | none => c
  | some s =>
    let me := { c with trace := c.trace ++ [IOAct.handler s ev] }
    match s with
    | .s_opening => SDSM.s_opening REVERSE_MOTION me ev
    | .s_setting_minimum => SDSM.s_setting_minimum REVERSE_MOTION me ev
    | .s_setting_maximum => SDSM.s_setting_maximum REVERSE_MOTION me ev
    | .s_driving_to_minimum => SDSM.s_driving_to_minimum REVERSE_MOTION me ev
    | .s_operational => SDSM.s_operational REVERSE_MOTION me ev
    | .s_paused => SDSM.s_paused REVERSE_MOTION me ev
termination_by 3 * ev.rank + 2
decreasing_by all_goals omega

/-- State handler SDSM::s_opening. -/
def SDSM.s_opening (REVERSE_MOTION : Bool) (me : Config) (ev : Event) : Config :=
  match ev with
  | .EV_INIT | .EV_ENTRY =>
    let c1 := ledColor me LedColor.LC_BLUE
    let c2 := ServoPot.reset c1
    ServoPot.positionServo REVERSE_MOTION c2 0.0
  | .EV_EXIT => me
  | .EV_TIMER => me
  | .EV_BUTTON_SHORT_PRESS =>
    let r := ServoPot.readPot me
    if r.1 < 0.1 then StateMachine.changeStateTo REVERSE_MOTION r.2 State.s_setting_minimum
    else errorFlash r.2
  | .EV_BUTTON_LONG_PRESS => me
  | .EV_POLL => me
termination_by 3 * ev.rank + 1
decreasing_by all_goals decide

/-- State handler SDSM::s_setting_minimum. -/
def SDSM.s_setting_minimum (REVERSE_MOTION : Bool) (me : Config) (ev : Event) : Config :=
  match ev with
  | .EV_ENTRY =>
    let c1 := ledColor me LedColor.LC_RED
    ServoPot.positionServo REVERSE_MOTION c1 0.0
  | .EV_EXIT => me
  | .EV_POLL => ServoPot.setServoFromPot REVERSE_MOTION me
  | .EV_TIMER => me
  | .EV_BUTTON_SHORT_PRESS =>
    let c1 := { me with minimumPosition_ := ServoPot.servoPuPosition REVERSE_MOTION me }
    StateMachine.changeStateTo REVERSE_MOTION c1 State.s_setting_maximum
  | .EV_BUTTON_LONG_PRESS => StateMachine.changeStateTo REVERSE_MOTION me State.s_opening
  | .EV_INIT => me
termination_by 3 * ev.rank + 1
decreasing_by all_goals decide

/-- State handler SDSM::s_setting_maximum. -/
def SDSM.s_setting_maximum (REVERSE_MOTION : Bool) (me : Config) (ev : Event) : Config :=
  match ev with
  | .EV_ENTRY => ledColor me LedColor.LC_YELLOW
  | .EV_EXIT => me
  | .EV_TIMER => me
  | .EV_POLL => ServoPot.setServoFromPot REVERSE_MOTION me
  | .EV_BUTTON_SHORT_PRESS =>
    let c1 := { me with maximumPosition_ := ServoPot.servoPuPosition REVERSE_MOTION me }
    StateMachine.changeStateTo REVERSE_MOTION c1 State.s_driving_to_minimum
  | .EV_BUTTON_LONG_PRESS => StateMachine.changeStateTo REVERSE_MOTION me State.s_opening
  | .EV_INIT => me
termination_by 3 * ev.rank + 1
decreasing_by all_goals decide

/-- State handler SDSM::s_driving_to_minimum. -/
def SDSM.s_driving_to_minimum (REVERSE_MOTION : Bool) (me : Config) (ev : Event) : Config :=
  match ev with
  | .EV_ENTRY =>
    let c1 := ledColor me LedColor.LC_GREEN
    ServoPot.positionServo REVERSE_MOTION c1 me.minimumPosition_
  | .EV_EXIT => me
  | .EV_TIMER => me
  | .EV_BUTTON_SHORT_PRESS =>
    let r := ServoPot.readPot me
    if r.1 < 0.1 then StateMachine.changeStateTo REVERSE_MOTION r.2 State.s_operational
    else errorFlash r.2
  | .EV_BUTTON_LONG_PRESS => StateMachine.changeStateTo REVERSE_MOTION me State.s_opening
  | .EV_INIT => me
  | .EV_POLL => me
termination_by 3 * ev.rank + 1
decreasing_by all_goals decide

/-- State handler SDSM::s_operational. -/
def SDSM.s_operational (REVERSE_MOTION : Bool) (me : Config) (ev : Event) : Config :=
  match ev with
  | .EV_ENTRY =>
    let c1 := ServoPot.setServoMinimum me me.minimumPosition_
    let c2 := ServoPot.setServoMaximum c1 me.maximumPosition_
    ledColor c2 LedColor.LC_MAGENTA
  | .EV_EXIT => me
  | .EV_TIMER => me
  | .EV_POLL => ServoPot.setServoFromPot REVERSE_MOTION me
  | .EV_BUTTON_SHORT_PRESS => StateMachine.changeStateTo REVERSE_MOTION me State.s_paused
  | .EV_BUTTON_LONG_PRESS => StateMachine.changeStateTo REVERSE_MOTION me State.s_opening
  | .EV_INIT => me
termination_by 3 * ev.rank + 1
decreasing_by all_goals decide

/-- State handler SDSM::s_paused. -/
def SDSM.s_paused (REVERSE_MOTION : Bool) (me : Config) (ev : Event) : Config :=
  match ev with
  | .EV_ENTRY =>
    let c1 := ledColor me LedColor.LC_WHITE
    ServoPot.positionServo REVERSE_MOTION c1 0.0
  | .EV_EXIT => me
  | .EV_TIMER => me
  | .EV_BUTTON_SHORT_PRESS =>
    let c1 := ServoPot.setServoFromPot REVERSE_MOTION me
    StateMachine.changeStateTo REVERSE_MOTION c1 State.s_operational
  | .EV_BUTTON_LONG_PRESS => StateMachine.changeStateTo REVERSE_MOTION me State.s_opening
  | .EV_INIT => me
  | .EV_POLL => me
termination_by 3 * ev.rank + 1
decreasing_by all_goals decide

end

/-- Function milliseconds: the tick counter, a 32-bit unsigned value. -/
def milliseconds (c : Config) : Nat :=
  c.TickCount % UINT32_MOD

/-- Member StateMachine::setTimer. -/
def StateMachine.setTimer (c : Config) (ticks : Nat) : Config :=
  { c with timeout_ := (milliseconds c + ticks) % UINT32_MOD }

/-- Member StateMachine::tick: check timeouts. -/
def StateMachine.tick (REVERSE_MOTION : Bool) (c : Config) : Config :=
  if c.timeout_ = 0 then c
  else if milliseconds c ≥ c.timeout_ then
    let c1 := StateMachine.dispatch REVERSE_MOTION c Event.EV_TIMER
    { c1 with timeout_ := 0 }
  else c

/-- Member StateMachine::initialize. -/
def StateMachine.initialize (REVERSE_MOTION : Bool) (c : Config) : Config :=
  StateMachine.dispatch REVERSE_MOTION c Event.EV_INIT

/-- Member SDSM::dispatch (its printf is a diagnostic). -/
def SDSM.dispatch (REVERSE_MOTION : Bool) (c : Config) (ev : Event) : Config :=
  StateMachine.dispatch REVERSE_MOTION c ev

/-- Member SDSM::buttonDown. -/
def SDSM.buttonDown (c : Config) : Config :=
  let now := milliseconds c
  if now < c.buttonDebouncingEnd_ then c
  else
    { c with
      buttonDebouncingEnd_ := (now + BUTTON_DEBOUNCE_TIMEOUT) % UINT32_MOD
      buttonDown_ := now
      buttonUp_ := 0 }

/-- Member SDSM::buttonUp. -/
def SDSM.buttonUp (REVERSE_MOTION : Bool) (c : Config) : Config :=
  let now := milliseconds c
  if now < c.buttonDebouncingEnd_ then c
  else
    let downTime := (now + UINT32_MOD - c.buttonDown_) % UINT32_MOD
    let c1 :=
      { c with
        buttonDebouncingEnd_ := (now + BUTTON_DEBOUNCE_TIMEOUT) % UINT32_MOD
        buttonDown_ := 0
        buttonUp_ := now }
    if downTime > BUTTON_SHORT_TIMEOUT then
      SDSM.dispatch REVERSE_MOTION c1 Event.EV_BUTTON_LONG_PRESS
    else
      SDSM.dispatch REVERSE_MOTION c1 Event.EV_BUTTON_SHORT_PRESS

/-- The local buttonState of SDSM::readButton: the logical negation of the pin value. -/
def buttonState (c : Config) : Int :=
  if c.buttonInput = 0 then 1 else 0

/-- Member SDSM::readButton. -/
def SDSM.readButton (REVERSE_MOTION : Bool) (c : Config) : Config :=
  if buttonState c ≠ c.lastButtonState_ then
    let c1 :=
      if buttonState c = BUTTON_PRESSED then SDSM.buttonDown c
      else SDSM.buttonUp REVERSE_MOTION c
    { c1 with lastButtonState_ := buttonState c }
  else c

/-- Constructor ServoPot::ServoPot (setting the PWM period is hardware glue). -/
def ServoPot.ctor (c : Config) : Config :=
  ServoPot.reset { c with servoMin_ := 0.0, servoMax_ := 1.0, currentPosition_ := 0.0 }

/-- Constructor SDSM::SDSM; the members it does not mention keep their earlier content. -/
def SDSM.ctor (c : Config) : Config :=
  { c with
    currentState_ := some State.s_opening
    buttonDown_ := 0
    buttonUp_ := milliseconds c
    lastButtonState_ := BUTTON_RELEASED
    buttonDebouncingEnd_ := 0 }

/-- Start-up: the constructors of the globals servoPot and stateMachine, then the part of
main before its loop.  The argument is the content of memory and of the hardware registers
before start-up; the trace starts empty. -/
def boot (REVERSE_MOTION : Bool) (pre : Config) : Config :=
  let c1 := ServoPot.ctor { pre with trace := [] }
  let c2 := SDSM.ctor c1
  let c3 := initializeIO REVERSE_MOTION c2
  StateMachine.initialize REVERSE_MOTION c3

/-- The environment changes the knob, the button pin and the tick counter. -/
def setInputs (c : Config) (pot : ℚ) (pin : Int) (ticks : Nat) : Config :=
  { c with potInput := pot, buttonInput := pin, TickCount := ticks }

/-- Configurations reachable from start-up: between calls the inputs change freely; the
loop of main calls tick, readButton and dispatch(EV_POLL); a test harness may dispatch a
press event directly. -/
inductive Reachable (REVERSE_MOTION : Bool) : Config → Prop where
  | boot (pre : Config) : Reachable REVERSE_MOTION (ServoDrill.boot REVERSE_MOTION pre)
  | inputs (c : Config) (pot : ℚ) (pin : Int) (ticks : Nat) :
      Reachable REVERSE_MOTION c → Reachable REVERSE_MOTION (setInputs c pot pin ticks)
  | tick (c : Config) :
      Reachable REVERSE_MOTION c → Reachable REVERSE_MOTION (StateMachine.tick REVERSE_MOTION c)
  | readButton (c : Config) :
      Reachable REVERSE_MOTION c → Reachable REVERSE_MOTION (SDSM.readButton REVERSE_MOTION c)
  | poll (c : Config) :
      Reachable REVERSE_MOTION c →
      Reachable REVERSE_MOTION (SDSM.dispatch REVERSE_MOTION c Event.EV_POLL)
  | shortPress (c : Config) :
      Reachable REVERSE_MOTION c →
      Reachable REVERSE_MOTION (SDSM.dispatch REVERSE_MOTION c Event.EV_BUTTON_SHORT_PRESS)
  | longPress (c : Config) :
      Reachable REVERSE_MOTION c →
      Reachable REVERSE_MOTION (SDSM.dispatch REVERSE_MOTION c Event.EV_BUTTON_LONG_PRESS)

/-- The duty most recently given to servo.write, if any. -/
def lastServoWrite : List IOAct → Option ℚ
  | [] => none
  | a :: rest =>
    match lastServoWrite rest with
    | some d => some d
    | none =>
      match a with
      | IOAct.servoWrite d => some d
      | _ => none

/-- The press events handed to a state handler, in order. -/
def pressEvents : List IOAct → List Event
  | [] => []
  | IOAct.handler _ Event.EV_BUTTON_SHORT_PRESS :: rest =>
    Event.EV_BUTTON_SHORT_PRESS :: pressEvents rest
  | IOAct.handler _ Event.EV_BUTTON_LONG_PRESS :: rest =>
    Event.EV_BUTTON_LONG_PRESS :: pressEvents rest
  | _ :: rest => pressEvents rest

/-- Bounds of the position mapper are the full range. -/
def fullRange (c : Config) : Prop :=
  c.servoMin_ = 0 ∧ c.servoMax_ = 1 ∧ c.servoRange_ = 1

/-- Bounds of the position mapper are the captured calibration. -/
def calibratedRange (c : Config) : Prop :=
  c.servoMin_ = c.minimumPosition_ ∧ c.servoMax_ = c.maximumPosition_ ∧
    c.servoRange_ = c.maximumPosition_ - c.minimumPosition_

/-- The invariant of the controller: a handler is always installed, the mapper bounds
follow the active state, and the duty register holds the last value written. -/
def Invariant (c : Config) : Prop :=
  lastServoWrite c.trace = some c.servo ∧
  match c.currentState_ with
  | none => False
  | some State.s_operational => calibratedRange c
  | some State.s_paused => calibratedRange c
  | some _ => fullRange c

/-! ## A concrete calibration run -/

/-- Memory and registers before start-up: everything zero, the button pin pulled up. -/
def zeroConfig : Config :=
  { potInput := 0, buttonInput := 1, TickCount := 0, servo := 0, redLed := 0, greenLed := 0,
    blueLed := 0, currentLedColor := LedColor.LC_BLACK, servoMin_ := 0, servoMax_ := 0,
    servoRange_ := 0, currentPosition_ := 0, currentPot_ := 0, lastPot := 0, timeout_ := 0,
    currentState_ := none, buttonDown_ := 0, buttonUp_ := 0, lastButtonState_ := 0,
    buttonDebouncingEnd_ := 0, minimumPosition_ := 0, maximumPosition_ := 0, trace := [] }

/-- The configuration after start-up (reverse motion off). -/
def exOpening : Config :=
  boot false zeroConfig

/-- Opening, the knob at 0.05. -/
def exOpeningLow : Config :=
  setInputs exOpening 0.05 1 0

/-- Opening, the knob at 0.5. -/
def exOpeningHigh : Config :=
  setInputs exOpening 0.5 1 0

/-- A short press with the knob at 0.05: now setting the minimum. -/
def exSettingMinimum : Config :=
  SDSM.dispatch false exOpeningLow Event.EV_BUTTON_SHORT_PRESS

/-- Knob turned to 0.2 and polled: the servo stands at 0.2. -/
def exSettingMinimumAt : Config :=
  SDSM.dispatch false (setInputs exSettingMinimum 0.2 1 0) Event.EV_POLL

/-- A short press captures the minimum 0.2: now setting the maximum. -/
def exSettingMaximum : Config :=
  SDSM.dispatch false exSettingMinimumAt Event.EV_BUTTON_SHORT_PRESS

/-- Knob turned to 0.8 and polled: the servo stands at 0.8. -/
def exSettingMaximumAt : Config :=
  SDSM.dispatch false (setInputs exSettingMaximum 0.8 1 0) Event.EV_POLL

/-- A short press captures the maximum 0.8: now driving to the minimum. -/
def exDrivingToMinimum : Config :=
  SDSM.dispatch false exSettingMaximumAt Event.EV_BUTTON_SHORT_PRESS

/-- Knob back at 0.05 and a short press: operational with bounds 0.2 and 0.8. -/
def exOperational : Config :=
  SDSM.dispatch false (setInputs exDrivingToMinimum 0.05 1 0) Event.EV_BUTTON_SHORT_PRESS

/-- Operational, the knob turned to 0.5 and not yet polled. -/
def exOperationalTurned : Config :=
  setInputs exOperational 0.5 1 0

/-- Operational, the knob at 0.5 polled: the servo stands at 0.5. -/
def exOperationalAt : Config :=
  SDSM.dispatch false exOperationalTurned Event.EV_POLL

/-- A short press while operational: paused, the knob still at 0.5. -/
def exPaused : Config :=
  SDSM.dispatch false exOperationalAt Event.EV_BUTTON_SHORT_PRESS

/-- The first button sample after start-up, the pin reading 1 at time 0. -/
def exFirstSample : Config :=
  SDSM.readButton false exOpening

/-- Five milliseconds later the pin reads 0. -/
def exBounce : Config :=
  setInputs exFirstSample 0 0 5

/-- Opening with the knob at 0.05; buttonDown ran at time 100, the clock now shows ticks. -/
def exHeld (ticks : Nat) : Config :=
  setInputs (SDSM.buttonDown (setInputs exOpening 0.05 1 100)) 0.05 0 ticks

/-! ## Runs, observers and further examples -/

/-- Successive calls of readButton; before each one the environment sets the clock and the
pin (first and second component of a sample), the knob keeps its value. -/
def runButton (REVERSE_MOTION : Bool) (c : Config) : List (Nat × Int) → Config
  | [] => c
  | sample :: rest =>
    runButton REVERSE_MOTION
      (SDSM.readButton REVERSE_MOTION (setInputs c c.potInput sample.2 sample.1)) rest

/-- The handler invocations of a trace, in order. -/
def handlerCalls : List IOAct → List (State × Event)
  | [] => []
  | IOAct.handler s ev :: rest => (s, ev) :: handlerCalls rest
  | _ :: rest => handlerCalls rest

/-- The duties given to servo.write, in order. -/
def servoWrites : List IOAct → List ℚ
  | [] => []
  | IOAct.servoWrite d :: rest => d :: servoWrites rest
  | _ :: rest => servoWrites rest

/-- A call of one of the three members of ServoPot that assign the mapper bounds. -/
inductive MapperCall where
  | reset
  | setServoMinimum (min : ℚ)
  | setServoMaximum (max : ℚ)
  deriving DecidableEq, Repr

/-- Perform one call on the mapper. -/
def MapperCall.run (c : Config) : MapperCall → Config
  | MapperCall.reset => ServoPot.reset c
  | MapperCall.setServoMinimum min => ServoPot.setServoMinimum c min
  | MapperCall.setServoMaximum max => ServoPot.setServoMaximum c max

/-- Perform a sequence of calls on the mapper, first to last. -/
def runMapper (c : Config) (calls : List MapperCall) : Config :=
  calls.foldl MapperCall.run c

/-- What a trace tells about the two captured positions: whether minimumPosition_ and
maximumPosition_ have been assigned since the entry action of OPENING last ran, and whether
every entry action that reads one of them ran after its assignment. -/
structure CaptureLog where
  minWritten : Bool
  maxWritten : Bool
  readsDefined : Bool
  deriving DecidableEq, Repr

/-- Follow one action of the trace.  The entry action of s_opening (EV_INIT or EV_ENTRY)
starts a calibration cycle; s_setting_minimum and s_setting_maximum assign their member on
EV_BUTTON_SHORT_PRESS; the entry action of s_driving_to_minimum reads minimumPosition_ and
that of s_operational reads both. -/
def CaptureLog.step (g : CaptureLog) : IOAct → CaptureLog
  | IOAct.handler State.s_opening Event.EV_INIT =>
    { g with minWritten := false, maxWritten := false }
  | IOAct.handler State.s_opening Event.EV_ENTRY =>
    { g with minWritten := false, maxWritten := false }
  | IOAct.handler State.s_setting_minimum Event.EV_BUTTON_SHORT_PRESS =>
    { g with minWritten := true }
  | IOAct.handler State.s_setting_maximum Event.EV_BUTTON_SHORT_PRESS =>
    { g with maxWritten := true }
  | IOAct.handler State.s_driving_to_minimum Event.EV_ENTRY =>
    { g with readsDefined := g.readsDefined && g.minWritten }
  | IOAct.handler State.s_operational Event.EV_ENTRY =>
    { g with readsDefined := g.readsDefined && g.minWritten && g.maxWritten }
  | _ => g

/-- Follow a whole trace from a given log. -/
def CaptureLog.run (g : CaptureLog) (t : List IOAct) : CaptureLog :=
  t.foldl CaptureLog.step g

/-- The log of a trace that starts at start-up: nothing assigned, nothing read. -/
def captureLog (t : List IOAct) : CaptureLog :=
  CaptureLog.run { minWritten := false, maxWritten := false, readsDefined := true } t

/-- The invariant behind the capture log: the reads so far were defined, the minimum is
assigned from SETTING_MAXIMUM on and the maximum from DRIVING_TO_MINIMUM on. -/
def CaptureInvariant (c : Config) : Prop :=
  (captureLog c.trace).readsDefined = true ∧
  match c.currentState_ with
  | none => False
  | some State.s_opening => True
  | some State.s_setting_minimum => True
  | some State.s_setting_maximum => (captureLog c.trace).minWritten = true
  | some _ =>
    (captureLog c.trace).minWritten = true ∧ (captureLog c.trace).maxWritten = true

/-- The button samples of the debounce scenario: the level the code calls pressed
(buttonState = BUTTON_PRESSED, pin value 1) from 2000 to 2100 and again from 2105 to 2200,
the second time starting 5 ms after the first release was accepted. -/
def bounceSamples : List (Nat × Int) :=
  [(2000, 1), (2100, 0), (2105, 1), (2200, 0)]

/-- The button samples of a physical press: the pin reads 1 (released) at start-up, 0
(pressed) from 50 to 3000 and 1 again afterwards. -/
def pressSamples : List (Nat × Int) :=
  [(0, 1), (50, 0), (3000, 1)]

/-- The concrete run paused, then a long press, and a short press with the knob at 0.05:
setting the minimum again after a completed calibration; the knob is then turned to 0.3. -/
def exRecalibrating : Config :=
  setInputs
    (SDSM.dispatch false
      (setInputs (SDSM.dispatch false exPaused Event.EV_BUTTON_LONG_PRESS) 0.05 1 0)
      Event.EV_BUTTON_SHORT_PRESS)
    0.3 1 0

/-! ## The duty in binary floating point

The functions above compute over the rationals.  The C code computes
`servoPuToDuty` in `double` (the macros expand to `double` constants, the `float` argument is
promoted) and narrows the result to `float`; `relativePosition` computes in `float`.  The
definitions below follow that evaluation, each operation rounded to nearest, ties to even
(IEEE 754 binary32 and binary64, one rounding per operation).  They cover the normal range
only: there is no overflow, subnormal number or NaN among the values met here. -/

/-- The concrete run paused with the knob at 0.5, then resumed by a short press. -/
def exResumed : Config :=
  SDSM.dispatch false exPaused Event.EV_BUTTON_SHORT_PRESS

/-! ## Auxiliary lemmas -/

set_option maxHeartbeats 1000000
set_option linter.unusedTactic false
set_option linter.unreachableTactic false

theorem lastServoWrite_append (t u : List IOAct) :
    lastServoWrite (t ++ u) =
      match lastServoWrite u with
      | some d => some d
      | none => lastServoWrite t := by
  induction t with
  | nil => simp [lastServoWrite]; cases lastServoWrite u <;> rfl
  | cons a t ih =>
    cases h : lastServoWrite u <;> simp [lastServoWrite, ih, h]

theorem pressEvents_append (t u : List IOAct) :
    pressEvents (t ++ u) = pressEvents t ++ pressEvents u := by
  induction t with
  | nil => simp [pressEvents]
  | cons a t ih =>
    cases a with
    | handler s e => cases e <;> simp [pressEvents, ih]
    | _ => simp [pressEvents, ih]

theorem servoDutyToPu_servoPuToDuty (R : Bool) (pu : ℚ) :
    servoDutyToPu R (servoPuToDuty R pu) = pu := by
  cases R <;>
    norm_num [servoDutyToPu, servoPuToDuty, SERVO_PWM_SCALE, SERVO_PWM_MIN_PU,
      SERVO_PWM_MAX_PU]

theorem uint32_sub_of_le (now d : Nat) (hd : d ≤ now) (hn : now < UINT32_MOD) :
    (now + UINT32_MOD - d) % UINT32_MOD = now - d := by
  simp only [UINT32_MOD] at *
  omega

theorem milliseconds_lt (c : Config) : milliseconds c < UINT32_MOD := by
  simp only [milliseconds, UINT32_MOD]
  omega

/-! ### The invariant holds in every reachable configuration -/

theorem invariant_dispatch (R : Bool) (c : Config) (ev : Event) (h : Invariant c) :
    Invariant (StateMachine.dispatch R c ev) := by
  cases c with
  | mk potInput buttonInput TickCount servo redLed greenLed blueLed currentLedColor servoMin_
      servoMax_ servoRange_ currentPosition_ currentPot_ lastPot timeout_ currentState_
      buttonDown_ buttonUp_ lastButtonState_ buttonDebouncingEnd_ minimumPosition_
      maximumPosition_ trace =>
  rcases currentState_ with _ | s
  · simp [Invariant] at h
  · cases s <;> cases ev <;>
      simp [Invariant, fullRange, calibratedRange, StateMachine.dispatch,
        StateMachine.changeStateTo, SDSM.s_opening, SDSM.s_setting_minimum,
        SDSM.s_setting_maximum, SDSM.s_driving_to_minimum, SDSM.s_operational, SDSM.s_paused,
        StateMachine.stopTimer, ledColor, errorFlash, ServoPot.reset, ServoPot.positionServo,
        ServoPot.setServoFromPot, ServoPot.readPot, ServoPot.setServoMinimum,
        ServoPot.setServoMaximum, ServoPot.relativePosition] at *
    all_goals try split_ifs
    all_goals try simp_all [lastServoWrite_append, lastServoWrite]
    all_goals try norm_num

theorem invariant_boot (R : Bool) (pre : Config) : Invariant (boot R pre) := by
  simp [boot, StateMachine.initialize, initializeIO, SDSM.ctor, ServoPot.ctor, Invariant,
    fullRange, StateMachine.dispatch, SDSM.s_opening, ledColor, ServoPot.reset,
    ServoPot.positionServo, ServoPot.relativePosition, lastServoWrite_append, lastServoWrite]
  norm_num

theorem invariant_tick (R : Bool) (c : Config) (h : Invariant c) :
    Invariant (StateMachine.tick R c) := by
  unfold StateMachine.tick
  split_ifs
  · exact h
  · exact invariant_dispatch R c Event.EV_TIMER h
  · exact h

theorem invariant_buttonDown (c : Config) (h : Invariant c) :
    Invariant (SDSM.buttonDown c) := by
  simp only [SDSM.buttonDown]
  split_ifs
  · exact h
  · exact h

theorem invariant_buttonUp (R : Bool) (c : Config) (h : Invariant c) :
    Invariant (SDSM.buttonUp R c) := by
  simp only [SDSM.buttonUp, SDSM.dispatch]
  split_ifs
  · exact h
  · exact invariant_dispatch R _ _ h
  · exact invariant_dispatch R _ _ h

theorem invariant_readButton (R : Bool) (c : Config) (h : Invariant c) :
    Invariant (SDSM.readButton R c) := by
  unfold SDSM.readButton
  split_ifs
  · exact invariant_buttonDown c h
  · exact invariant_buttonUp R c h
  · exact h

theorem reachable_invariant (R : Bool) (c : Config) (h : Reachable R c) : Invariant c := by
  induction h with
  | boot pre => exact invariant_boot R pre
  | inputs c pot pin ticks _ ih => exact ih
  | tick c _ ih => exact invariant_tick R c ih
  | readButton c _ ih => exact invariant_readButton R c ih
  | poll c _ ih => exact invariant_dispatch R c _ ih
  | shortPress c _ ih => exact invariant_dispatch R c _ ih
  | longPress c _ ih => exact invariant_dispatch R c _ ih

/-! ### A press event reaches exactly one handler as a press -/

theorem pressEvents_dispatch_short (R : Bool) (c : Config) (s : State)
    (hs : c.currentState_ = some s) :
    pressEvents (StateMachine.dispatch R c Event.EV_BUTTON_SHORT_PRESS).trace =
      pressEvents c.trace ++ [Event.EV_BUTTON_SHORT_PRESS] := by
  cases c
  simp only at hs
  subst hs
  cases s <;>
    simp [StateMachine.dispatch,
        StateMachine.changeStateTo, SDSM.s_opening, SDSM.s_setting_minimum,
        SDSM.s_setting_maximum, SDSM.s_driving_to_minimum, SDSM.s_operational, SDSM.s_paused,
        StateMachine.stopTimer, ledColor, errorFlash, ServoPot.reset, ServoPot.positionServo,
        ServoPot.setServoFromPot, ServoPot.readPot, ServoPot.setServoMinimum,
        ServoPot.setServoMaximum, ServoPot.relativePosition]
  all_goals try split_ifs
  all_goals simp [pressEvents_append, pressEvents]

theorem pressEvents_dispatch_long (R : Bool) (c : Config) (s : State)
    (hs : c.currentState_ = some s) :
    pressEvents (StateMachine.dispatch R c Event.EV_BUTTON_LONG_PRESS).trace =
      pressEvents c.trace ++ [Event.EV_BUTTON_LONG_PRESS] := by
  cases c
  simp only at hs
  subst hs
  cases s <;>
    simp [StateMachine.dispatch,
        StateMachine.changeStateTo, SDSM.s_opening, SDSM.s_setting_minimum,
        SDSM.s_setting_maximum, SDSM.s_driving_to_minimum, SDSM.s_operational, SDSM.s_paused,
        StateMachine.stopTimer, ledColor, errorFlash, ServoPot.reset, ServoPot.positionServo,
        ServoPot.setServoFromPot, ServoPot.readPot, ServoPot.setServoMinimum,
        ServoPot.setServoMaximum, ServoPot.relativePosition]
  all_goals try split_ifs
  all_goals simp [pressEvents_append, pressEvents]

/-! ### The concrete calibration run, evaluated -/

theorem exOpening_eq :
    exOpening =
      { potInput := 0, buttonInput := 1, TickCount := 0, servo := 1 / 40, redLed := 1, greenLed
        := 1, blueLed := 0, currentLedColor := LedColor.LC_BLUE, servoMin_ := 0, servoMax_ := 1,
        servoRange_ := 1, currentPosition_ := 0, currentPot_ := 0, lastPot := 0, timeout_ := 0,
        currentState_ := some State.s_opening, buttonDown_ := 0, buttonUp_ := 0,
        lastButtonState_ := 1, buttonDebouncingEnd_ := 0, minimumPosition_ := 0,
        maximumPosition_ := 0, trace := [IOAct.ledWrite LedColor.LC_BLACK, IOAct.servoWrite
        (1 / 40), IOAct.handler State.s_opening Event.EV_INIT, IOAct.ledWrite LedColor.LC_BLUE,
        IOAct.servoWrite (1 / 40)] } := by
  simp [exOpening, boot, StateMachine.initialize, initializeIO, SDSM.ctor, ServoPot.ctor,
    zeroConfig,
    milliseconds, StateMachine.dispatch,
    StateMachine.changeStateTo, SDSM.s_opening, SDSM.s_setting_minimum,
    SDSM.s_setting_maximum, SDSM.s_driving_to_minimum, SDSM.s_operational, SDSM.s_paused,
    StateMachine.stopTimer, ledColor, errorFlash, ServoPot.reset, ServoPot.positionServo,
    ServoPot.setServoFromPot, ServoPot.readPot, ServoPot.setServoMinimum,
    ServoPot.setServoMaximum, ServoPot.relativePosition, ServoPot.servoPuPosition,
    servoPuToDuty, servoDutyToPu, SERVO_PWM_SCALE, SERVO_PWM_MIN_PU, SERVO_PWM_MAX_PU,
    LedColor.val, LED_ON, LED_OFF, BUTTON_RELEASED, UINT32_MOD]
  all_goals try norm_num
  all_goals try decide

theorem exOpeningLow_eq :
    exOpeningLow =
      { potInput := 1 / 20, buttonInput := 1, TickCount := 0, servo := 1 / 40, redLed := 1,
        greenLed := 1, blueLed := 0, currentLedColor := LedColor.LC_BLUE, servoMin_ := 0,
        servoMax_ := 1, servoRange_ := 1, currentPosition_ := 0, currentPot_ := 0, lastPot := 0,
        timeout_ := 0, currentState_ := some State.s_opening, buttonDown_ := 0, buttonUp_ := 0,
        lastButtonState_ := 1, buttonDebouncingEnd_ := 0, minimumPosition_ := 0,
        maximumPosition_ := 0, trace := [IOAct.ledWrite LedColor.LC_BLACK, IOAct.servoWrite
        (1 / 40), IOAct.handler State.s_opening Event.EV_INIT, IOAct.ledWrite LedColor.LC_BLUE,
        IOAct.servoWrite (1 / 40)] } := by
  simp [exOpeningLow, exOpening_eq, setInputs, SDSM.dispatch, StateMachine.dispatch,
    StateMachine.changeStateTo, SDSM.s_opening, SDSM.s_setting_minimum,
    SDSM.s_setting_maximum, SDSM.s_driving_to_minimum, SDSM.s_operational, SDSM.s_paused,
    StateMachine.stopTimer, ledColor, errorFlash, ServoPot.reset, ServoPot.positionServo,
    ServoPot.setServoFromPot, ServoPot.readPot, ServoPot.setServoMinimum,
    ServoPot.setServoMaximum, ServoPot.relativePosition, ServoPot.servoPuPosition,
    servoPuToDuty, servoDutyToPu, SERVO_PWM_SCALE, SERVO_PWM_MIN_PU, SERVO_PWM_MAX_PU,
    LedColor.val, LED_ON, LED_OFF, BUTTON_RELEASED, UINT32_MOD]
  all_goals try norm_num
  all_goals try decide

theorem exOpeningHigh_eq :
    exOpeningHigh =
      { potInput := 1 / 2, buttonInput := 1, TickCount := 0, servo := 1 / 40, redLed := 1,
        greenLed := 1, blueLed := 0, currentLedColor := LedColor.LC_BLUE, servoMin_ := 0,
        servoMax_ := 1, servoRange_ := 1, currentPosition_ := 0, currentPot_ := 0, lastPot := 0,
        timeout_ := 0, currentState_ := some State.s_opening, buttonDown_ := 0, buttonUp_ := 0,
        lastButtonState_ := 1, buttonDebouncingEnd_ := 0, minimumPosition_ := 0,
        maximumPosition_ := 0, trace := [IOAct.ledWrite LedColor.LC_BLACK, IOAct.servoWrite
        (1 / 40), IOAct.handler State.s_opening Event.EV_INIT, IOAct.ledWrite LedColor.LC_BLUE,
        IOAct.servoWrite (1 / 40)] } := by
  simp [exOpeningHigh, exOpening_eq, setInputs, SDSM.dispatch, StateMachine.dispatch,
    StateMachine.changeStateTo, SDSM.s_opening, SDSM.s_setting_minimum,
    SDSM.s_setting_maximum, SDSM.s_driving_to_minimum, SDSM.s_operational, SDSM.s_paused,
    StateMachine.stopTimer, ledColor, errorFlash, ServoPot.reset, ServoPot.positionServo,
    ServoPot.setServoFromPot, ServoPot.readPot, ServoPot.setServoMinimum,
    ServoPot.setServoMaximum, ServoPot.relativePosition, ServoPot.servoPuPosition,
    servoPuToDuty, servoDutyToPu, SERVO_PWM_SCALE, SERVO_PWM_MIN_PU, SERVO_PWM_MAX_PU,
    LedColor.val, LED_ON, LED_OFF, BUTTON_RELEASED, UINT32_MOD]
  all_goals try norm_num
  all_goals try decide

theorem exSettingMinimum_eq :
    exSettingMinimum =
      { potInput := 1 / 20, buttonInput := 1, TickCount := 0, servo := 1 / 40, redLed := 0,
        greenLed := 1, blueLed := 1, currentLedColor := LedColor.LC_RED, servoMin_ := 0,
        servoMax_ := 1, servoRange_ := 1, currentPosition_ := 0, currentPot_ := 1 / 20, lastPot
        := 0, timeout_ := 0, currentState_ := some State.s_setting_minimum, buttonDown_ := 0,
        buttonUp_ := 0, lastButtonState_ := 1, buttonDebouncingEnd_ := 0, minimumPosition_ := 0,
        maximumPosition_ := 0, trace := [IOAct.ledWrite LedColor.LC_BLACK, IOAct.servoWrite
        (1 / 40), IOAct.handler State.s_opening Event.EV_INIT, IOAct.ledWrite LedColor.LC_BLUE,
        IOAct.servoWrite (1 / 40), IOAct.handler State.s_opening Event.EV_BUTTON_SHORT_PRESS,
        IOAct.handler State.s_opening Event.EV_EXIT, IOAct.handler State.s_setting_minimum
        Event.EV_ENTRY, IOAct.ledWrite LedColor.LC_RED, IOAct.servoWrite (1 / 40)] } := by
  simp [exSettingMinimum, exOpeningLow_eq, setInputs, SDSM.dispatch, StateMachine.dispatch,
    StateMachine.changeStateTo, SDSM.s_opening, SDSM.s_setting_minimum,
    SDSM.s_setting_maximum, SDSM.s_driving_to_minimum, SDSM.s_operational, SDSM.s_paused,
    StateMachine.stopTimer, ledColor, errorFlash, ServoPot.reset, ServoPot.positionServo,
    ServoPot.setServoFromPot, ServoPot.readPot, ServoPot.setServoMinimum,
    ServoPot.setServoMaximum, ServoPot.relativePosition, ServoPot.servoPuPosition,
    servoPuToDuty, servoDutyToPu, SERVO_PWM_SCALE, SERVO_PWM_MIN_PU, SERVO_PWM_MAX_PU,
    LedColor.val, LED_ON, LED_OFF, BUTTON_RELEASED, UINT32_MOD]
  all_goals try norm_num
  all_goals try decide

theorem exSettingMinimumAt_eq :
    exSettingMinimumAt =
      { potInput := 1 / 5, buttonInput := 1, TickCount := 0, servo := 37 / 1000, redLed := 0,
        greenLed := 1, blueLed := 1, currentLedColor := LedColor.LC_RED, servoMin_ := 0,
        servoMax_ := 1, servoRange_ := 1, currentPosition_ := 1 / 5, currentPot_ := 1 / 5,
        lastPot := 1 / 5, timeout_ := 0, currentState_ := some State.s_setting_minimum,
        buttonDown_ := 0, buttonUp_ := 0, lastButtonState_ := 1, buttonDebouncingEnd_ := 0,
        minimumPosition_ := 0, maximumPosition_ := 0, trace := [IOAct.ledWrite
        LedColor.LC_BLACK, IOAct.servoWrite (1 / 40), IOAct.handler State.s_opening
        Event.EV_INIT, IOAct.ledWrite LedColor.LC_BLUE, IOAct.servoWrite (1 / 40), IOAct.handler
        State.s_opening Event.EV_BUTTON_SHORT_PRESS, IOAct.handler State.s_opening
        Event.EV_EXIT, IOAct.handler State.s_setting_minimum Event.EV_ENTRY, IOAct.ledWrite
        LedColor.LC_RED, IOAct.servoWrite (1 / 40), IOAct.handler State.s_setting_minimum
        Event.EV_POLL, IOAct.servoWrite (37 / 1000)] } := by
  simp [exSettingMinimumAt, exSettingMinimum_eq, setInputs, SDSM.dispatch, StateMachine.dispatch,
    StateMachine.changeStateTo, SDSM.s_opening, SDSM.s_setting_minimum,
    SDSM.s_setting_maximum, SDSM.s_driving_to_minimum, SDSM.s_operational, SDSM.s_paused,
    StateMachine.stopTimer, ledColor, errorFlash, ServoPot.reset, ServoPot.positionServo,
    ServoPot.setServoFromPot, ServoPot.readPot, ServoPot.setServoMinimum,
    ServoPot.setServoMaximum, ServoPot.relativePosition, ServoPot.servoPuPosition,
    servoPuToDuty, servoDutyToPu, SERVO_PWM_SCALE, SERVO_PWM_MIN_PU, SERVO_PWM_MAX_PU,
    LedColor.val, LED_ON, LED_OFF, BUTTON_RELEASED, UINT32_MOD]
  all_goals try norm_num
  all_goals try decide

theorem exSettingMaximum_eq :
    exSettingMaximum =
      { potInput := 1 / 5, buttonInput := 1, TickCount := 0, servo := 37 / 1000, redLed := 0,
        greenLed := 0, blueLed := 1, currentLedColor := LedColor.LC_YELLOW, servoMin_ := 0,
        servoMax_ := 1, servoRange_ := 1, currentPosition_ := 1 / 5, currentPot_ := 1 / 5,
        lastPot := 1 / 5, timeout_ := 0, currentState_ := some State.s_setting_maximum,
        buttonDown_ := 0, buttonUp_ := 0, lastButtonState_ := 1, buttonDebouncingEnd_ := 0,
        minimumPosition_ := 1 / 5, maximumPosition_ := 0, trace := [IOAct.ledWrite
        LedColor.LC_BLACK, IOAct.servoWrite (1 / 40), IOAct.handler State.s_opening
        Event.EV_INIT, IOAct.ledWrite LedColor.LC_BLUE, IOAct.servoWrite (1 / 40), IOAct.handler
        State.s_opening Event.EV_BUTTON_SHORT_PRESS, IOAct.handler State.s_opening
        Event.EV_EXIT, IOAct.handler State.s_setting_minimum Event.EV_ENTRY, IOAct.ledWrite
        LedColor.LC_RED, IOAct.servoWrite (1 / 40), IOAct.handler State.s_setting_minimum
        Event.EV_POLL, IOAct.servoWrite (37 / 1000), IOAct.handler State.s_setting_minimum
        Event.EV_BUTTON_SHORT_PRESS, IOAct.handler State.s_setting_minimum Event.EV_EXIT,
        IOAct.handler State.s_setting_maximum Event.EV_ENTRY, IOAct.ledWrite LedColor.LC_YELLOW]
        } := by
  simp [exSettingMaximum, exSettingMinimumAt_eq, setInputs, SDSM.dispatch, StateMachine.dispatch,
    StateMachine.changeStateTo, SDSM.s_opening, SDSM.s_setting_minimum,
    SDSM.s_setting_maximum, SDSM.s_driving_to_minimum, SDSM.s_operational, SDSM.s_paused,
    StateMachine.stopTimer, ledColor, errorFlash, ServoPot.reset, ServoPot.positionServo,
    ServoPot.setServoFromPot, ServoPot.readPot, ServoPot.setServoMinimum,
    ServoPot.setServoMaximum, ServoPot.relativePosition, ServoPot.servoPuPosition,
    servoPuToDuty, servoDutyToPu, SERVO_PWM_SCALE, SERVO_PWM_MIN_PU, SERVO_PWM_MAX_PU,
    LedColor.val, LED_ON, LED_OFF, BUTTON_RELEASED, UINT32_MOD]
  all_goals try norm_num
  all_goals try decide

theorem exSettingMaximumAt_eq :
    exSettingMaximumAt =
      { potInput := 4 / 5, buttonInput := 1, TickCount := 0, servo := 73 / 1000, redLed := 0,
        greenLed := 0, blueLed := 1, currentLedColor := LedColor.LC_YELLOW, servoMin_ := 0,
        servoMax_ := 1, servoRange_ := 1, currentPosition_ := 4 / 5, currentPot_ := 4 / 5,
        lastPot := 4 / 5, timeout_ := 0, currentState_ := some State.s_setting_maximum,
        buttonDown_ := 0, buttonUp_ := 0, lastButtonState_ := 1, buttonDebouncingEnd_ := 0,
        minimumPosition_ := 1 / 5, maximumPosition_ := 0, trace := [IOAct.ledWrite
        LedColor.LC_BLACK, IOAct.servoWrite (1 / 40), IOAct.handler State.s_opening
        Event.EV_INIT, IOAct.ledWrite LedColor.LC_BLUE, IOAct.servoWrite (1 / 40), IOAct.handler
        State.s_opening Event.EV_BUTTON_SHORT_PRESS, IOAct.handler State.s_opening
        Event.EV_EXIT, IOAct.handler State.s_setting_minimum Event.EV_ENTRY, IOAct.ledWrite
        LedColor.LC_RED, IOAct.servoWrite (1 / 40), IOAct.handler State.s_setting_minimum
        Event.EV_POLL, IOAct.servoWrite (37 / 1000), IOAct.handler State.s_setting_minimum
        Event.EV_BUTTON_SHORT_PRESS, IOAct.handler State.s_setting_minimum Event.EV_EXIT,
        IOAct.handler State.s_setting_maximum Event.EV_ENTRY, IOAct.ledWrite LedColor.LC_YELLOW,
        IOAct.handler State.s_setting_maximum Event.EV_POLL, IOAct.servoWrite (73 / 1000)] } := by
  simp [exSettingMaximumAt, exSettingMaximum_eq, setInputs, SDSM.dispatch, StateMachine.dispatch,
    StateMachine.changeStateTo, SDSM.s_opening, SDSM.s_setting_minimum,
    SDSM.s_setting_maximum, SDSM.s_driving_to_minimum, SDSM.s_operational, SDSM.s_paused,
    StateMachine.stopTimer, ledColor, errorFlash, ServoPot.reset, ServoPot.positionServo,
    ServoPot.setServoFromPot, ServoPot.readPot, ServoPot.setServoMinimum,
    ServoPot.setServoMaximum, ServoPot.relativePosition, ServoPot.servoPuPosition,
    servoPuToDuty, servoDutyToPu, SERVO_PWM_SCALE, SERVO_PWM_MIN_PU, SERVO_PWM_MAX_PU,
    LedColor.val, LED_ON, LED_OFF, BUTTON_RELEASED, UINT32_MOD]
  all_goals try norm_num
  all_goals try decide

theorem exDrivingToMinimum_eq :
    exDrivingToMinimum =
      { potInput := 4 / 5, buttonInput := 1, TickCount := 0, servo := 37 / 1000, redLed := 1,
        greenLed := 0, blueLed := 1, currentLedColor := LedColor.LC_GREEN, servoMin_ := 0,
        servoMax_ := 1, servoRange_ := 1, currentPosition_ := 1 / 5, currentPot_ := 4 / 5,
        lastPot := 4 / 5, timeout_ := 0, currentState_ := some State.s_driving_to_minimum,
        buttonDown_ := 0, buttonUp_ := 0, lastButtonState_ := 1, buttonDebouncingEnd_ := 0,
        minimumPosition_ := 1 / 5, maximumPosition_ := 4 / 5, trace := [IOAct.ledWrite
        LedColor.LC_BLACK, IOAct.servoWrite (1 / 40), IOAct.handler State.s_opening
        Event.EV_INIT, IOAct.ledWrite LedColor.LC_BLUE, IOAct.servoWrite (1 / 40), IOAct.handler
        State.s_opening Event.EV_BUTTON_SHORT_PRESS, IOAct.handler State.s_opening
        Event.EV_EXIT, IOAct.handler State.s_setting_minimum Event.EV_ENTRY, IOAct.ledWrite
        LedColor.LC_RED, IOAct.servoWrite (1 / 40), IOAct.handler State.s_setting_minimum
        Event.EV_POLL, IOAct.servoWrite (37 / 1000), IOAct.handler State.s_setting_minimum
        Event.EV_BUTTON_SHORT_PRESS, IOAct.handler State.s_setting_minimum Event.EV_EXIT,
        IOAct.handler State.s_setting_maximum Event.EV_ENTRY, IOAct.ledWrite LedColor.LC_YELLOW,
        IOAct.handler State.s_setting_maximum Event.EV_POLL, IOAct.servoWrite (73 / 1000),
        IOAct.handler State.s_setting_maximum Event.EV_BUTTON_SHORT_PRESS, IOAct.handler
        State.s_setting_maximum Event.EV_EXIT, IOAct.handler State.s_driving_to_minimum
        Event.EV_ENTRY, IOAct.ledWrite LedColor.LC_GREEN, IOAct.servoWrite (37 / 1000)] } := by
  simp [exDrivingToMinimum, exSettingMaximumAt_eq, setInputs, SDSM.dispatch, StateMachine.dispatch,
    StateMachine.changeStateTo, SDSM.s_opening, SDSM.s_setting_minimum,
    SDSM.s_setting_maximum, SDSM.s_driving_to_minimum, SDSM.s_operational, SDSM.s_paused,
    StateMachine.stopTimer, ledColor, errorFlash, ServoPot.reset, ServoPot.positionServo,
    ServoPot.setServoFromPot, ServoPot.readPot, ServoPot.setServoMinimum,
    ServoPot.setServoMaximum, ServoPot.relativePosition, ServoPot.servoPuPosition,
    servoPuToDuty, servoDutyToPu, SERVO_PWM_SCALE, SERVO_PWM_MIN_PU, SERVO_PWM_MAX_PU,
    LedColor.val, LED_ON, LED_OFF, BUTTON_RELEASED, UINT32_MOD]
  all_goals try norm_num
  all_goals try decide

theorem exOperational_eq :
    exOperational =
      { potInput := 1 / 20, buttonInput := 1, TickCount := 0, servo := 37 / 1000, redLed := 0,
        greenLed := 1, blueLed := 0, currentLedColor := LedColor.LC_MAGENTA, servoMin_ := 1 / 5,
        servoMax_ := 4 / 5, servoRange_ := 3 / 5, currentPosition_ := 1 / 5, currentPot_ := 1 /
        20, lastPot := 4 / 5, timeout_ := 0, currentState_ := some State.s_operational,
        buttonDown_ := 0, buttonUp_ := 0, lastButtonState_ := 1, buttonDebouncingEnd_ := 0,
        minimumPosition_ := 1 / 5, maximumPosition_ := 4 / 5, trace := [IOAct.ledWrite
        LedColor.LC_BLACK, IOAct.servoWrite (1 / 40), IOAct.handler State.s_opening
        Event.EV_INIT, IOAct.ledWrite LedColor.LC_BLUE, IOAct.servoWrite (1 / 40), IOAct.handler
        State.s_opening Event.EV_BUTTON_SHORT_PRESS, IOAct.handler State.s_opening
        Event.EV_EXIT, IOAct.handler State.s_setting_minimum Event.EV_ENTRY, IOAct.ledWrite
        LedColor.LC_RED, IOAct.servoWrite (1 / 40), IOAct.handler State.s_setting_minimum
        Event.EV_POLL, IOAct.servoWrite (37 / 1000), IOAct.handler State.s_setting_minimum
        Event.EV_BUTTON_SHORT_PRESS, IOAct.handler State.s_setting_minimum Event.EV_EXIT,
        IOAct.handler State.s_setting_maximum Event.EV_ENTRY, IOAct.ledWrite LedColor.LC_YELLOW,
        IOAct.handler State.s_setting_maximum Event.EV_POLL, IOAct.servoWrite (73 / 1000),
        IOAct.handler State.s_setting_maximum Event.EV_BUTTON_SHORT_PRESS, IOAct.handler
        State.s_setting_maximum Event.EV_EXIT, IOAct.handler State.s_driving_to_minimum
        Event.EV_ENTRY, IOAct.ledWrite LedColor.LC_GREEN, IOAct.servoWrite (37 / 1000),
        IOAct.handler State.s_driving_to_minimum Event.EV_BUTTON_SHORT_PRESS, IOAct.handler
        State.s_driving_to_minimum Event.EV_EXIT, IOAct.handler State.s_operational
        Event.EV_ENTRY, IOAct.ledWrite LedColor.LC_MAGENTA] } := by
  simp [exOperational, exDrivingToMinimum_eq, setInputs, SDSM.dispatch, StateMachine.dispatch,
    StateMachine.changeStateTo, SDSM.s_opening, SDSM.s_setting_minimum,
    SDSM.s_setting_maximum, SDSM.s_driving_to_minimum, SDSM.s_operational, SDSM.s_paused,
    StateMachine.stopTimer, ledColor, errorFlash, ServoPot.reset, ServoPot.positionServo,
    ServoPot.setServoFromPot, ServoPot.readPot, ServoPot.setServoMinimum,
    ServoPot.setServoMaximum, ServoPot.relativePosition, ServoPot.servoPuPosition,
    servoPuToDuty, servoDutyToPu, SERVO_PWM_SCALE, SERVO_PWM_MIN_PU, SERVO_PWM_MAX_PU,
    LedColor.val, LED_ON, LED_OFF, BUTTON_RELEASED, UINT32_MOD]
  all_goals try norm_num
  all_goals try decide

theorem exOperationalTurned_eq :
    exOperationalTurned =
      { potInput := 1 / 2, buttonInput := 1, TickCount := 0, servo := 37 / 1000, redLed := 0,
        greenLed := 1, blueLed := 0, currentLedColor := LedColor.LC_MAGENTA, servoMin_ := 1 / 5,
        servoMax_ := 4 / 5, servoRange_ := 3 / 5, currentPosition_ := 1 / 5, currentPot_ := 1 /
        20, lastPot := 4 / 5, timeout_ := 0, currentState_ := some State.s_operational,
        buttonDown_ := 0, buttonUp_ := 0, lastButtonState_ := 1, buttonDebouncingEnd_ := 0,
        minimumPosition_ := 1 / 5, maximumPosition_ := 4 / 5, trace := [IOAct.ledWrite
        LedColor.LC_BLACK, IOAct.servoWrite (1 / 40), IOAct.handler State.s_opening
        Event.EV_INIT, IOAct.ledWrite LedColor.LC_BLUE, IOAct.servoWrite (1 / 40), IOAct.handler
        State.s_opening Event.EV_BUTTON_SHORT_PRESS, IOAct.handler State.s_opening
        Event.EV_EXIT, IOAct.handler State.s_setting_minimum Event.EV_ENTRY, IOAct.ledWrite
        LedColor.LC_RED, IOAct.servoWrite (1 / 40), IOAct.handler State.s_setting_minimum
        Event.EV_POLL, IOAct.servoWrite (37 / 1000), IOAct.handler State.s_setting_minimum
        Event.EV_BUTTON_SHORT_PRESS, IOAct.handler State.s_setting_minimum Event.EV_EXIT,
        IOAct.handler State.s_setting_maximum Event.EV_ENTRY, IOAct.ledWrite LedColor.LC_YELLOW,
        IOAct.handler State.s_setting_maximum Event.EV_POLL, IOAct.servoWrite (73 / 1000),
        IOAct.handler State.s_setting_maximum Event.EV_BUTTON_SHORT_PRESS, IOAct.handler
        State.s_setting_maximum Event.EV_EXIT, IOAct.handler State.s_driving_to_minimum
        Event.EV_ENTRY, IOAct.ledWrite LedColor.LC_GREEN, IOAct.servoWrite (37 / 1000),
        IOAct.handler State.s_driving_to_minimum Event.EV_BUTTON_SHORT_PRESS, IOAct.handler
        State.s_driving_to_minimum Event.EV_EXIT, IOAct.handler State.s_operational
        Event.EV_ENTRY, IOAct.ledWrite LedColor.LC_MAGENTA] } := by
  simp [exOperationalTurned, exOperational_eq, setInputs, SDSM.dispatch, StateMachine.dispatch,
    StateMachine.changeStateTo, SDSM.s_opening, SDSM.s_setting_minimum,
    SDSM.s_setting_maximum, SDSM.s_driving_to_minimum, SDSM.s_operational, SDSM.s_paused,
    StateMachine.stopTimer, ledColor, errorFlash, ServoPot.reset, ServoPot.positionServo,
    ServoPot.setServoFromPot, ServoPot.readPot, ServoPot.setServoMinimum,
    ServoPot.setServoMaximum, ServoPot.relativePosition, ServoPot.servoPuPosition,
    servoPuToDuty, servoDutyToPu, SERVO_PWM_SCALE, SERVO_PWM_MIN_PU, SERVO_PWM_MAX_PU,
    LedColor.val, LED_ON, LED_OFF, BUTTON_RELEASED, UINT32_MOD]
  all_goals try norm_num
  all_goals try decide

theorem exOperationalAt_eq :
    exOperationalAt =
      { potInput := 1 / 2, buttonInput := 1, TickCount := 0, servo := 11 / 200, redLed := 0,
        greenLed := 1, blueLed := 0, currentLedColor := LedColor.LC_MAGENTA, servoMin_ := 1 / 5,
        servoMax_ := 4 / 5, servoRange_ := 3 / 5, currentPosition_ := 1 / 2, currentPot_ := 1 /
        2, lastPot := 1 / 2, timeout_ := 0, currentState_ := some State.s_operational,
        buttonDown_ := 0, buttonUp_ := 0, lastButtonState_ := 1, buttonDebouncingEnd_ := 0,
        minimumPosition_ := 1 / 5, maximumPosition_ := 4 / 5, trace := [IOAct.ledWrite
        LedColor.LC_BLACK, IOAct.servoWrite (1 / 40), IOAct.handler State.s_opening
        Event.EV_INIT, IOAct.ledWrite LedColor.LC_BLUE, IOAct.servoWrite (1 / 40), IOAct.handler
        State.s_opening Event.EV_BUTTON_SHORT_PRESS, IOAct.handler State.s_opening
        Event.EV_EXIT, IOAct.handler State.s_setting_minimum Event.EV_ENTRY, IOAct.ledWrite
        LedColor.LC_RED, IOAct.servoWrite (1 / 40), IOAct.handler State.s_setting_minimum
        Event.EV_POLL, IOAct.servoWrite (37 / 1000), IOAct.handler State.s_setting_minimum
        Event.EV_BUTTON_SHORT_PRESS, IOAct.handler State.s_setting_minimum Event.EV_EXIT,
        IOAct.handler State.s_setting_maximum Event.EV_ENTRY, IOAct.ledWrite LedColor.LC_YELLOW,
        IOAct.handler State.s_setting_maximum Event.EV_POLL, IOAct.servoWrite (73 / 1000),
        IOAct.handler State.s_setting_maximum Event.EV_BUTTON_SHORT_PRESS, IOAct.handler
        State.s_setting_maximum Event.EV_EXIT, IOAct.handler State.s_driving_to_minimum
        Event.EV_ENTRY, IOAct.ledWrite LedColor.LC_GREEN, IOAct.servoWrite (37 / 1000),
        IOAct.handler State.s_driving_to_minimum Event.EV_BUTTON_SHORT_PRESS, IOAct.handler
        State.s_driving_to_minimum Event.EV_EXIT, IOAct.handler State.s_operational
        Event.EV_ENTRY, IOAct.ledWrite LedColor.LC_MAGENTA, IOAct.handler State.s_operational
        Event.EV_POLL, IOAct.servoWrite (11 / 200)] } := by
  simp [exOperationalAt, exOperationalTurned_eq, setInputs, SDSM.dispatch, StateMachine.dispatch,
    StateMachine.changeStateTo, SDSM.s_opening, SDSM.s_setting_minimum,
    SDSM.s_setting_maximum, SDSM.s_driving_to_minimum, SDSM.s_operational, SDSM.s_paused,
    StateMachine.stopTimer, ledColor, errorFlash, ServoPot.reset, ServoPot.positionServo,
    ServoPot.setServoFromPot, ServoPot.readPot, ServoPot.setServoMinimum,
    ServoPot.setServoMaximum, ServoPot.relativePosition, ServoPot.servoPuPosition,
    servoPuToDuty, servoDutyToPu, SERVO_PWM_SCALE, SERVO_PWM_MIN_PU, SERVO_PWM_MAX_PU,
    LedColor.val, LED_ON, LED_OFF, BUTTON_RELEASED, UINT32_MOD]
  all_goals try norm_num
  all_goals try decide

theorem exPaused_eq :
    exPaused =
      { potInput := 1 / 2, buttonInput := 1, TickCount := 0, servo := 37 / 1000, redLed := 0,
        greenLed := 0, blueLed := 0, currentLedColor := LedColor.LC_WHITE, servoMin_ := 1 / 5,
        servoMax_ := 4 / 5, servoRange_ := 3 / 5, currentPosition_ := 0, currentPot_ := 1 / 2,
        lastPot := 1 / 2, timeout_ := 0, currentState_ := some State.s_paused, buttonDown_ := 0,
        buttonUp_ := 0, lastButtonState_ := 1, buttonDebouncingEnd_ := 0, minimumPosition_ := 1
        / 5, maximumPosition_ := 4 / 5, trace := [IOAct.ledWrite LedColor.LC_BLACK,
        IOAct.servoWrite (1 / 40), IOAct.handler State.s_opening Event.EV_INIT, IOAct.ledWrite
        LedColor.LC_BLUE, IOAct.servoWrite (1 / 40), IOAct.handler State.s_opening
        Event.EV_BUTTON_SHORT_PRESS, IOAct.handler State.s_opening Event.EV_EXIT, IOAct.handler
        State.s_setting_minimum Event.EV_ENTRY, IOAct.ledWrite LedColor.LC_RED, IOAct.servoWrite
        (1 / 40), IOAct.handler State.s_setting_minimum Event.EV_POLL, IOAct.servoWrite (37 /
        1000), IOAct.handler State.s_setting_minimum Event.EV_BUTTON_SHORT_PRESS, IOAct.handler
        State.s_setting_minimum Event.EV_EXIT, IOAct.handler State.s_setting_maximum
        Event.EV_ENTRY, IOAct.ledWrite LedColor.LC_YELLOW, IOAct.handler State.s_setting_maximum
        Event.EV_POLL, IOAct.servoWrite (73 / 1000), IOAct.handler State.s_setting_maximum
        Event.EV_BUTTON_SHORT_PRESS, IOAct.handler State.s_setting_maximum Event.EV_EXIT,
        IOAct.handler State.s_driving_to_minimum Event.EV_ENTRY, IOAct.ledWrite
        LedColor.LC_GREEN, IOAct.servoWrite (37 / 1000), IOAct.handler
        State.s_driving_to_minimum Event.EV_BUTTON_SHORT_PRESS, IOAct.handler
        State.s_driving_to_minimum Event.EV_EXIT, IOAct.handler State.s_operational
        Event.EV_ENTRY, IOAct.ledWrite LedColor.LC_MAGENTA, IOAct.handler State.s_operational
        Event.EV_POLL, IOAct.servoWrite (11 / 200), IOAct.handler State.s_operational
        Event.EV_BUTTON_SHORT_PRESS, IOAct.handler State.s_operational Event.EV_EXIT,
        IOAct.handler State.s_paused Event.EV_ENTRY, IOAct.ledWrite LedColor.LC_WHITE,
        IOAct.servoWrite (37 / 1000)] } := by
  simp [exPaused, exOperationalAt_eq, setInputs, SDSM.dispatch, StateMachine.dispatch,
    StateMachine.changeStateTo, SDSM.s_opening, SDSM.s_setting_minimum,
    SDSM.s_setting_maximum, SDSM.s_driving_to_minimum, SDSM.s_operational, SDSM.s_paused,
    StateMachine.stopTimer, ledColor, errorFlash, ServoPot.reset, ServoPot.positionServo,
    ServoPot.setServoFromPot, ServoPot.readPot, ServoPot.setServoMinimum,
    ServoPot.setServoMaximum, ServoPot.relativePosition, ServoPot.servoPuPosition,
    servoPuToDuty, servoDutyToPu, SERVO_PWM_SCALE, SERVO_PWM_MIN_PU, SERVO_PWM_MAX_PU,
    LedColor.val, LED_ON, LED_OFF, BUTTON_RELEASED, UINT32_MOD]
  all_goals try norm_num
  all_goals try decide

theorem exFirstSample_eq :
    exFirstSample =
      { potInput := 0, buttonInput := 1, TickCount := 0, servo := 1 / 40, redLed := 1, greenLed
        := 1, blueLed := 0, currentLedColor := LedColor.LC_BLUE, servoMin_ := 0, servoMax_ := 1,
        servoRange_ := 1, currentPosition_ := 0, currentPot_ := 0, lastPot := 0, timeout_ := 0,
        currentState_ := some State.s_opening, buttonDown_ := 0, buttonUp_ := 0,
        lastButtonState_ := 0, buttonDebouncingEnd_ := 10, minimumPosition_ := 0,
        maximumPosition_ := 0, trace := [IOAct.ledWrite LedColor.LC_BLACK, IOAct.servoWrite
        (1 / 40), IOAct.handler State.s_opening Event.EV_INIT, IOAct.ledWrite LedColor.LC_BLUE,
        IOAct.servoWrite (1 / 40)] } := by
  simp [exFirstSample, exOpening_eq, SDSM.readButton, SDSM.buttonDown, SDSM.buttonUp, buttonState,
    milliseconds, BUTTON_PRESSED, BUTTON_DEBOUNCE_TIMEOUT, StateMachine.dispatch,
    StateMachine.changeStateTo, SDSM.s_opening, SDSM.s_setting_minimum,
    SDSM.s_setting_maximum, SDSM.s_driving_to_minimum, SDSM.s_operational, SDSM.s_paused,
    StateMachine.stopTimer, ledColor, errorFlash, ServoPot.reset, ServoPot.positionServo,
    ServoPot.setServoFromPot, ServoPot.readPot, ServoPot.setServoMinimum,
    ServoPot.setServoMaximum, ServoPot.relativePosition, ServoPot.servoPuPosition,
    servoPuToDuty, servoDutyToPu, SERVO_PWM_SCALE, SERVO_PWM_MIN_PU, SERVO_PWM_MAX_PU,
    LedColor.val, LED_ON, LED_OFF, BUTTON_RELEASED, UINT32_MOD]
  all_goals try norm_num
  all_goals try decide

theorem exBounce_eq :
    exBounce =
      { potInput := 0, buttonInput := 0, TickCount := 5, servo := 1 / 40, redLed := 1, greenLed
        := 1, blueLed := 0, currentLedColor := LedColor.LC_BLUE, servoMin_ := 0, servoMax_ := 1,
        servoRange_ := 1, currentPosition_ := 0, currentPot_ := 0, lastPot := 0, timeout_ := 0,
        currentState_ := some State.s_opening, buttonDown_ := 0, buttonUp_ := 0,
        lastButtonState_ := 0, buttonDebouncingEnd_ := 10, minimumPosition_ := 0,
        maximumPosition_ := 0, trace := [IOAct.ledWrite LedColor.LC_BLACK, IOAct.servoWrite
        (1 / 40), IOAct.handler State.s_opening Event.EV_INIT, IOAct.ledWrite LedColor.LC_BLUE,
        IOAct.servoWrite (1 / 40)] } := by
  simp [exBounce, exFirstSample_eq, setInputs, SDSM.dispatch, StateMachine.dispatch,
    StateMachine.changeStateTo, SDSM.s_opening, SDSM.s_setting_minimum,
    SDSM.s_setting_maximum, SDSM.s_driving_to_minimum, SDSM.s_operational, SDSM.s_paused,
    StateMachine.stopTimer, ledColor, errorFlash, ServoPot.reset, ServoPot.positionServo,
    ServoPot.setServoFromPot, ServoPot.readPot, ServoPot.setServoMinimum,
    ServoPot.setServoMaximum, ServoPot.relativePosition, ServoPot.servoPuPosition,
    servoPuToDuty, servoDutyToPu, SERVO_PWM_SCALE, SERVO_PWM_MIN_PU, SERVO_PWM_MAX_PU,
    LedColor.val, LED_ON, LED_OFF, BUTTON_RELEASED, UINT32_MOD]
  all_goals try norm_num
  all_goals try decide

/-! ### The concrete calibration run is reachable -/

theorem reachable_exOpening : Reachable false exOpening :=
  Reachable.boot zeroConfig

theorem reachable_exOpeningLow : Reachable false exOpeningLow :=
  Reachable.inputs _ _ _ _ reachable_exOpening

theorem reachable_exSettingMinimum : Reachable false exSettingMinimum :=
  Reachable.shortPress _ reachable_exOpeningLow

theorem reachable_exSettingMinimumAt : Reachable false exSettingMinimumAt :=
  Reachable.poll _ (Reachable.inputs _ _ _ _ reachable_exSettingMinimum)

theorem reachable_exSettingMaximum : Reachable false exSettingMaximum :=
  Reachable.shortPress _ reachable_exSettingMinimumAt

theorem reachable_exSettingMaximumAt : Reachable false exSettingMaximumAt :=
  Reachable.poll _ (Reachable.inputs _ _ _ _ reachable_exSettingMaximum)

theorem reachable_exDrivingToMinimum : Reachable false exDrivingToMinimum :=
  Reachable.shortPress _ reachable_exSettingMaximumAt

theorem reachable_exOperational : Reachable false exOperational :=
  Reachable.shortPress _ (Reachable.inputs _ _ _ _ reachable_exDrivingToMinimum)

theorem reachable_exOperationalTurned : Reachable false exOperationalTurned :=
  Reachable.inputs _ _ _ _ reachable_exOperational

theorem reachable_exOperationalAt : Reachable false exOperationalAt :=
  Reachable.poll _ reachable_exOperationalTurned

theorem reachable_exPaused : Reachable false exPaused :=
  Reachable.shortPress _ reachable_exOperationalAt

theorem reachable_exBounce : Reachable false exBounce :=
  Reachable.inputs _ _ _ _ (Reachable.readButton _ reachable_exOpening)

/-! ## The long press -/

/-- Claim C1: in each of the five states other than OPENING a long press leaves the machine
in OPENING, with the mapper bounds reset to servoMin_ = 0.0, servoMax_ = 1.0 and
servoRange_ = 1.0, the indicator BLUE and the actuator commanded once, to normalized
position 0.0: the duty written is servoPuToDuty(0.0).  This holds for every configuration
in such a state, reachable or not. -/
theorem long_press_returns_to_opening (R : Bool) (c : Config) (s : State)
    (hs : c.currentState_ = some s) (hne : s ≠ State.s_opening) :
    (SDSM.dispatch R c Event.EV_BUTTON_LONG_PRESS).currentState_ = some State.s_opening ∧
    (SDSM.dispatch R c Event.EV_BUTTON_LONG_PRESS).servoMin_ = 0.0 ∧
    (SDSM.dispatch R c Event.EV_BUTTON_LONG_PRESS).servoMax_ = 1.0 ∧
    (SDSM.dispatch R c Event.EV_BUTTON_LONG_PRESS).servoRange_ = 1.0 ∧
    (SDSM.dispatch R c Event.EV_BUTTON_LONG_PRESS).currentLedColor = LedColor.LC_BLUE ∧
    (SDSM.dispatch R c Event.EV_BUTTON_LONG_PRESS).servo = servoPuToDuty R 0.0 ∧
    (SDSM.dispatch R c Event.EV_BUTTON_LONG_PRESS).trace =
      c.trace ++ [IOAct.handler s Event.EV_BUTTON_LONG_PRESS, IOAct.handler s Event.EV_EXIT,
        IOAct.handler State.s_opening Event.EV_ENTRY, IOAct.ledWrite LedColor.LC_BLUE,
        IOAct.servoWrite (servoPuToDuty R 0.0)] := by
  cases c
  simp only at hs
  subst hs
  cases s <;>
    simp [SDSM.dispatch, StateMachine.dispatch, StateMachine.changeStateTo, SDSM.s_opening,
      SDSM.s_setting_minimum, SDSM.s_setting_maximum, SDSM.s_driving_to_minimum,
      SDSM.s_operational, SDSM.s_paused, StateMachine.stopTimer, ledColor, ServoPot.reset,
      ServoPot.positionServo, ServoPot.relativePosition] at * <;>
    norm_num

/-- Witness for C1: a long press while setting the minimum in the concrete run. -/
theorem long_press_returns_to_opening_witness :
    exSettingMinimum.currentState_ = some State.s_setting_minimum ∧
    State.s_setting_minimum ≠ State.s_opening ∧
    (SDSM.dispatch false exSettingMinimum Event.EV_BUTTON_LONG_PRESS).currentState_ =
      some State.s_opening ∧
    (SDSM.dispatch false exSettingMinimum Event.EV_BUTTON_LONG_PRESS).currentLedColor =
      LedColor.LC_BLUE ∧
    (SDSM.dispatch false exSettingMinimum Event.EV_BUTTON_LONG_PRESS).servo =
      servoPuToDuty false 0.0 :=
  have hs : exSettingMinimum.currentState_ = some State.s_setting_minimum := by
    rw [exSettingMinimum_eq]
  have h :=
    long_press_returns_to_opening false exSettingMinimum State.s_setting_minimum hs
      (by decide)
  ⟨hs, by decide, h.1, h.2.2.2.2.1, h.2.2.2.2.2.1⟩

/-! ## Operation -/

/-- Claim C2: in every reachable OPERATIONAL configuration with captured minimum m and
maximum M, an EV_POLL whose knob reading k differs from the previously driven knob value
lastPot writes the duty servoPuToDuty(k * (M - m) + m), once, and stays OPERATIONAL; with
m = 0.2 and M = 0.8 the readings 0.5, 0.0 and 1.0 drive to 0.5, 0.2 and 0.8. -/
theorem operational_poll_maps_through_calibration (R : Bool) (c : Config)
    (hr : Reachable R c) (hs : c.currentState_ = some State.s_operational)
    (hk : c.potInput ≠ c.lastPot) :
    (SDSM.dispatch R c Event.EV_POLL).servo =
      servoPuToDuty R
        (c.potInput * (c.maximumPosition_ - c.minimumPosition_) + c.minimumPosition_) ∧
    (SDSM.dispatch R c Event.EV_POLL).trace =
      c.trace ++ [IOAct.handler State.s_operational Event.EV_POLL,
        IOAct.servoWrite (servoPuToDuty R
          (c.potInput * (c.maximumPosition_ - c.minimumPosition_) + c.minimumPosition_))] ∧
    (SDSM.dispatch R c Event.EV_POLL).currentState_ = some State.s_operational ∧
    (c.minimumPosition_ = 0.2 → c.maximumPosition_ = 0.8 →
      (c.potInput = 0.5 → (SDSM.dispatch R c Event.EV_POLL).servo = servoPuToDuty R 0.5) ∧
      (c.potInput = 0.0 → (SDSM.dispatch R c Event.EV_POLL).servo = servoPuToDuty R 0.2) ∧
      (c.potInput = 1.0 → (SDSM.dispatch R c Event.EV_POLL).servo = servoPuToDuty R 0.8)) := by
  have hinv := reachable_invariant R c hr
  cases c
  simp only at hs
  subst hs
  simp [Invariant, calibratedRange, SDSM.dispatch, StateMachine.dispatch, SDSM.s_operational,
    ServoPot.setServoFromPot, ServoPot.readPot, ServoPot.positionServo,
    ServoPot.relativePosition] at *
  obtain ⟨-, h1, -, h3⟩ := hinv
  subst h1 h3
  simp only [hk, if_false]
  split_ifs <;> simp
  all_goals
    intro hmin hmax
    subst hmin hmax
    refine ⟨?_, ?_, ?_⟩ <;> intro hp <;> subst hp <;> norm_num

/-- Witness for C2: the concrete run, operational with bounds 0.2 and 0.8, the knob turned
from 0.8 to 0.5. -/
theorem operational_poll_maps_through_calibration_witness :
    Reachable false exOperationalTurned ∧
    exOperationalTurned.currentState_ = some State.s_operational ∧
    exOperationalTurned.potInput ≠ exOperationalTurned.lastPot ∧
    (SDSM.dispatch false exOperationalTurned Event.EV_POLL).servo = servoPuToDuty false 0.5 :=
  have hs : exOperationalTurned.currentState_ = some State.s_operational := by
    rw [exOperationalTurned_eq]
  have hk : exOperationalTurned.potInput ≠ exOperationalTurned.lastPot := by
    rw [exOperationalTurned_eq]; norm_num
  have hmin : exOperationalTurned.minimumPosition_ = 0.2 := by
    rw [exOperationalTurned_eq]; norm_num
  have hmax : exOperationalTurned.maximumPosition_ = 0.8 := by
    rw [exOperationalTurned_eq]; norm_num
  have hpot : exOperationalTurned.potInput = 0.5 := by
    rw [exOperationalTurned_eq]; norm_num
  have h :=
    operational_poll_maps_through_calibration false exOperationalTurned
      reachable_exOperationalTurned hs hk
  ⟨reachable_exOperationalTurned, hs, hk, (h.2.2.2 hmin hmax).1 hpot⟩

/-! ## Calibration -/

/-- Claim C3: in every reachable SETTING_MINIMUM configuration a short press sets
minimumPosition_ to servoDutyToPu of the duty register, which holds the duty last written
(so if that duty was servoPuToDuty(pu), the captured minimum is pu), moves the machine to
SETTING_MAXIMUM and sets the indicator YELLOW; no servo.write is issued and the duty is
unchanged. -/
theorem setting_minimum_short_press_captures (R : Bool) (c : Config) (hr : Reachable R c)
    (hs : c.currentState_ = some State.s_setting_minimum) :
    (SDSM.dispatch R c Event.EV_BUTTON_SHORT_PRESS).minimumPosition_ =
      servoDutyToPu R c.servo ∧
    lastServoWrite c.trace = some c.servo ∧
    (∀ pu : ℚ, c.servo = servoPuToDuty R pu →
      (SDSM.dispatch R c Event.EV_BUTTON_SHORT_PRESS).minimumPosition_ = pu) ∧
    (SDSM.dispatch R c Event.EV_BUTTON_SHORT_PRESS).currentState_ =
      some State.s_setting_maximum ∧
    (SDSM.dispatch R c Event.EV_BUTTON_SHORT_PRESS).currentLedColor = LedColor.LC_YELLOW ∧
    (SDSM.dispatch R c Event.EV_BUTTON_SHORT_PRESS).servo = c.servo ∧
    (SDSM.dispatch R c Event.EV_BUTTON_SHORT_PRESS).trace =
      c.trace ++ [IOAct.handler State.s_setting_minimum Event.EV_BUTTON_SHORT_PRESS,
        IOAct.handler State.s_setting_minimum Event.EV_EXIT,
        IOAct.handler State.s_setting_maximum Event.EV_ENTRY,
        IOAct.ledWrite LedColor.LC_YELLOW] := by
  have hinv := reachable_invariant R c hr
  cases c
  simp only at hs
  subst hs
  simp [Invariant, SDSM.dispatch, StateMachine.dispatch, StateMachine.changeStateTo,
    SDSM.s_setting_minimum, SDSM.s_setting_maximum, StateMachine.stopTimer, ledColor,
    ServoPot.servoPuPosition] at *
  refine ⟨hinv.1, ?_⟩
  intro pu hpu
  rw [hpu, servoDutyToPu_servoPuToDuty]

/-- Witness for C3: the concrete run, setting the minimum with the servo driven to 0.2. -/
theorem setting_minimum_short_press_captures_witness :
    Reachable false exSettingMinimumAt ∧
    exSettingMinimumAt.currentState_ = some State.s_setting_minimum ∧
    (SDSM.dispatch false exSettingMinimumAt Event.EV_BUTTON_SHORT_PRESS).minimumPosition_ =
      servoDutyToPu false exSettingMinimumAt.servo ∧
    (SDSM.dispatch false exSettingMinimumAt Event.EV_BUTTON_SHORT_PRESS).currentState_ =
      some State.s_setting_maximum ∧
    (SDSM.dispatch false exSettingMinimumAt Event.EV_BUTTON_SHORT_PRESS).currentLedColor =
      LedColor.LC_YELLOW :=
  have hs : exSettingMinimumAt.currentState_ = some State.s_setting_minimum := by
    rw [exSettingMinimumAt_eq]
  have h :=
    setting_minimum_short_press_captures false exSettingMinimumAt
      reachable_exSettingMinimumAt hs
  ⟨reachable_exSettingMinimumAt, hs, h.1, h.2.2.2.1, h.2.2.2.2.1⟩

/-- Claim C4: in every reachable SETTING_MAXIMUM configuration a short press sets
maximumPosition_ to servoDutyToPu of the duty register (the duty last written), keeps
minimumPosition_, moves the machine to DRIVING_TO_MINIMUM, sets the indicator GREEN and
writes the duty servoPuToDuty(minimumPosition_), once: the mapper bounds are the full range
there, so no calibration scaling applies. -/
theorem setting_maximum_short_press_captures (R : Bool) (c : Config) (hr : Reachable R c)
    (hs : c.currentState_ = some State.s_setting_maximum) :
    (SDSM.dispatch R c Event.EV_BUTTON_SHORT_PRESS).maximumPosition_ =
      servoDutyToPu R c.servo ∧
    lastServoWrite c.trace = some c.servo ∧
    (SDSM.dispatch R c Event.EV_BUTTON_SHORT_PRESS).minimumPosition_ = c.minimumPosition_ ∧
    (SDSM.dispatch R c Event.EV_BUTTON_SHORT_PRESS).currentState_ =
      some State.s_driving_to_minimum ∧
    (SDSM.dispatch R c Event.EV_BUTTON_SHORT_PRESS).currentLedColor = LedColor.LC_GREEN ∧
    (SDSM.dispatch R c Event.EV_BUTTON_SHORT_PRESS).servo =
      servoPuToDuty R c.minimumPosition_ ∧
    (SDSM.dispatch R c Event.EV_BUTTON_SHORT_PRESS).trace =
      c.trace ++ [IOAct.handler State.s_setting_maximum Event.EV_BUTTON_SHORT_PRESS,
        IOAct.handler State.s_setting_maximum Event.EV_EXIT,
        IOAct.handler State.s_driving_to_minimum Event.EV_ENTRY,
        IOAct.ledWrite LedColor.LC_GREEN,
        IOAct.servoWrite (servoPuToDuty R c.minimumPosition_)] := by
  have hinv := reachable_invariant R c hr
  cases c
  simp only at hs
  subst hs
  simp [Invariant, fullRange, SDSM.dispatch, StateMachine.dispatch, StateMachine.changeStateTo,
    SDSM.s_setting_maximum, SDSM.s_driving_to_minimum, StateMachine.stopTimer, ledColor,
    ServoPot.servoPuPosition, ServoPot.positionServo, ServoPot.relativePosition] at *
  obtain ⟨h0, h1, -, h3⟩ := hinv
  subst h1 h3
  split_ifs <;> simp [h0]

/-- Witness for C4: the concrete run, setting the maximum with the servo driven to 0.8 and
the minimum 0.2 captured before. -/
theorem setting_maximum_short_press_captures_witness :
    Reachable false exSettingMaximumAt ∧
    exSettingMaximumAt.currentState_ = some State.s_setting_maximum ∧
    (SDSM.dispatch false exSettingMaximumAt Event.EV_BUTTON_SHORT_PRESS).currentState_ =
      some State.s_driving_to_minimum ∧
    (SDSM.dispatch false exSettingMaximumAt Event.EV_BUTTON_SHORT_PRESS).currentLedColor =
      LedColor.LC_GREEN ∧
    (SDSM.dispatch false exSettingMaximumAt Event.EV_BUTTON_SHORT_PRESS).servo =
      servoPuToDuty false exSettingMaximumAt.minimumPosition_ :=
  have hs : exSettingMaximumAt.currentState_ = some State.s_setting_maximum := by
    rw [exSettingMaximumAt_eq]
  have h :=
    setting_maximum_short_press_captures false exSettingMaximumAt
      reachable_exSettingMaximumAt hs
  ⟨reachable_exSettingMaximumAt, hs, h.2.2.2.1, h.2.2.2.2.1, h.2.2.2.2.2.1⟩

/-! ## Pause and resume -/

theorem exResumed_eq :
    exResumed =
      { potInput := 1 / 2, buttonInput := 1, TickCount := 0, servo := 37 / 1000, redLed := 0,
        greenLed := 1, blueLed := 0, currentLedColor := LedColor.LC_MAGENTA, servoMin_ := 1 / 5,
        servoMax_ := 4 / 5, servoRange_ := 3 / 5, currentPosition_ := 0, currentPot_ := 1 / 2,
        lastPot := 1 / 2, timeout_ := 0, currentState_ := some State.s_operational, buttonDown_
        := 0, buttonUp_ := 0, lastButtonState_ := 1, buttonDebouncingEnd_ := 0, minimumPosition_
        := 1 / 5, maximumPosition_ := 4 / 5, trace := [IOAct.ledWrite LedColor.LC_BLACK,
        IOAct.servoWrite (1 / 40), IOAct.handler State.s_opening Event.EV_INIT, IOAct.ledWrite
        LedColor.LC_BLUE, IOAct.servoWrite (1 / 40), IOAct.handler State.s_opening
        Event.EV_BUTTON_SHORT_PRESS, IOAct.handler State.s_opening Event.EV_EXIT, IOAct.handler
        State.s_setting_minimum Event.EV_ENTRY, IOAct.ledWrite LedColor.LC_RED, IOAct.servoWrite
        (1 / 40), IOAct.handler State.s_setting_minimum Event.EV_POLL, IOAct.servoWrite (37 /
        1000), IOAct.handler State.s_setting_minimum Event.EV_BUTTON_SHORT_PRESS, IOAct.handler
        State.s_setting_minimum Event.EV_EXIT, IOAct.handler State.s_setting_maximum
        Event.EV_ENTRY, IOAct.ledWrite LedColor.LC_YELLOW, IOAct.handler State.s_setting_maximum
        Event.EV_POLL, IOAct.servoWrite (73 / 1000), IOAct.handler State.s_setting_maximum
        Event.EV_BUTTON_SHORT_PRESS, IOAct.handler State.s_setting_maximum Event.EV_EXIT,
        IOAct.handler State.s_driving_to_minimum Event.EV_ENTRY, IOAct.ledWrite
        LedColor.LC_GREEN, IOAct.servoWrite (37 / 1000), IOAct.handler
        State.s_driving_to_minimum Event.EV_BUTTON_SHORT_PRESS, IOAct.handler
        State.s_driving_to_minimum Event.EV_EXIT, IOAct.handler State.s_operational
        Event.EV_ENTRY, IOAct.ledWrite LedColor.LC_MAGENTA, IOAct.handler State.s_operational
        Event.EV_POLL, IOAct.servoWrite (11 / 200), IOAct.handler State.s_operational
        Event.EV_BUTTON_SHORT_PRESS, IOAct.handler State.s_operational Event.EV_EXIT,
        IOAct.handler State.s_paused Event.EV_ENTRY, IOAct.ledWrite LedColor.LC_WHITE,
        IOAct.servoWrite (37 / 1000), IOAct.handler State.s_paused Event.EV_BUTTON_SHORT_PRESS,
        IOAct.handler State.s_paused Event.EV_EXIT, IOAct.handler State.s_operational
        Event.EV_ENTRY, IOAct.ledWrite LedColor.LC_MAGENTA] } := by
  simp [exResumed, exPaused_eq, setInputs, SDSM.dispatch, StateMachine.dispatch,
    StateMachine.changeStateTo, SDSM.s_opening, SDSM.s_setting_minimum,
    SDSM.s_setting_maximum, SDSM.s_driving_to_minimum, SDSM.s_operational, SDSM.s_paused,
    StateMachine.stopTimer, ledColor, errorFlash, ServoPot.reset, ServoPot.positionServo,
    ServoPot.setServoFromPot, ServoPot.readPot, ServoPot.setServoMinimum,
    ServoPot.setServoMaximum, ServoPot.relativePosition, ServoPot.servoPuPosition,
    servoPuToDuty, servoDutyToPu, SERVO_PWM_SCALE, SERVO_PWM_MIN_PU, SERVO_PWM_MAX_PU,
    LedColor.val, LED_ON, LED_OFF, BUTTON_RELEASED, UINT32_MOD]
  all_goals try norm_num
  all_goals try decide

/-- Claim C5, evaluated at its failing input: the concrete run is OPERATIONAL with bounds
0.2 and 0.8 and the servo driven to the knob reading 0.5; a short press pauses it, which
drives the servo to the minimum but leaves lastPot at 0.5.  The short press that resumes,
the knob still at 0.5, writes no duty: the machine is OPERATIONAL again with the duty
register at servoPuToDuty(0.2) instead of servoPuToDuty(0.5 * (0.8 - 0.2) + 0.2), and a
following EV_POLL with the knob unchanged leaves it there. -/
theorem paused_resume_leaves_servo_at_minimum :
    Reachable false exPaused ∧
    exPaused.currentState_ = some State.s_paused ∧
    exPaused.potInput = 0.5 ∧
    exPaused.lastPot = 0.5 ∧
    exPaused.minimumPosition_ = 0.2 ∧
    exPaused.maximumPosition_ = 0.8 ∧
    exPaused.servo = servoPuToDuty false 0.2 ∧
    exResumed.currentState_ = some State.s_operational ∧
    exResumed.currentLedColor = LedColor.LC_MAGENTA ∧
    exResumed.potInput = 0.5 ∧
    servoWrites exResumed.trace = servoWrites exPaused.trace ∧
    exResumed.servo = servoPuToDuty false 0.2 ∧
    exResumed.servo ≠ servoPuToDuty false (0.5 * (0.8 - 0.2) + 0.2) ∧
    (SDSM.dispatch false exResumed Event.EV_POLL).currentState_ =
      some State.s_operational ∧
    servoWrites (SDSM.dispatch false exResumed Event.EV_POLL).trace =
      servoWrites exPaused.trace ∧
    (SDSM.dispatch false exResumed Event.EV_POLL).servo = servoPuToDuty false 0.2 := by
  refine ⟨reachable_exPaused, ?_, ?_, ?_, ?_, ?_, ?_, ?_, ?_, ?_, ?_, ?_, ?_, ?_, ?_, ?_⟩
  · rw [exPaused_eq]
  · rw [exPaused_eq]; norm_num
  · rw [exPaused_eq]; norm_num
  · rw [exPaused_eq]; norm_num
  · rw [exPaused_eq]; norm_num
  · rw [exPaused_eq]
    norm_num [servoPuToDuty, SERVO_PWM_SCALE, SERVO_PWM_MIN_PU, SERVO_PWM_MAX_PU]
  · rw [exResumed_eq]
  · rw [exResumed_eq]
  · rw [exResumed_eq]; norm_num
  · rw [exResumed_eq, exPaused_eq]
    simp [servoWrites]
  · rw [exResumed_eq]
    norm_num [servoPuToDuty, SERVO_PWM_SCALE, SERVO_PWM_MIN_PU, SERVO_PWM_MAX_PU]
  · rw [exResumed_eq]
    norm_num [servoPuToDuty, SERVO_PWM_SCALE, SERVO_PWM_MIN_PU, SERVO_PWM_MAX_PU]
  · simp [exResumed_eq, SDSM.dispatch, StateMachine.dispatch, SDSM.s_operational,
      ServoPot.setServoFromPot, ServoPot.readPot]
  · rw [exPaused_eq]
    simp [exResumed_eq, SDSM.dispatch, StateMachine.dispatch, SDSM.s_operational,
      ServoPot.setServoFromPot, ServoPot.readPot, servoWrites]
  · simp [exResumed_eq, SDSM.dispatch, StateMachine.dispatch, SDSM.s_operational,
      ServoPot.setServoFromPot, ServoPot.readPot]
    norm_num [servoPuToDuty, SERVO_PWM_SCALE, SERVO_PWM_MIN_PU, SERVO_PWM_MAX_PU]

/-- Claim C6: in every reachable OPERATIONAL configuration a short press moves the machine
to PAUSED, sets the indicator WHITE and writes the duty servoPuToDuty(minimumPosition_),
once: positionServo(0.0) maps 0.0 through the mapper bounds, which in PAUSED are exactly
minimumPosition_ and maximumPosition_. -/
theorem operational_short_press_pauses (R : Bool) (c : Config) (hr : Reachable R c)
    (hs : c.currentState_ = some State.s_operational) :
    (SDSM.dispatch R c Event.EV_BUTTON_SHORT_PRESS).currentState_ = some State.s_paused ∧
    (SDSM.dispatch R c Event.EV_BUTTON_SHORT_PRESS).currentLedColor = LedColor.LC_WHITE ∧
    (SDSM.dispatch R c Event.EV_BUTTON_SHORT_PRESS).servo =
      servoPuToDuty R c.minimumPosition_ ∧
    (SDSM.dispatch R c Event.EV_BUTTON_SHORT_PRESS).trace =
      c.trace ++ [IOAct.handler State.s_operational Event.EV_BUTTON_SHORT_PRESS,
        IOAct.handler State.s_operational Event.EV_EXIT,
        IOAct.handler State.s_paused Event.EV_ENTRY,
        IOAct.ledWrite LedColor.LC_WHITE,
        IOAct.servoWrite (servoPuToDuty R c.minimumPosition_)] ∧
    (SDSM.dispatch R c Event.EV_BUTTON_SHORT_PRESS).servoMin_ = c.minimumPosition_ ∧
    (SDSM.dispatch R c Event.EV_BUTTON_SHORT_PRESS).servoMax_ = c.maximumPosition_ ∧
    (SDSM.dispatch R c Event.EV_BUTTON_SHORT_PRESS).minimumPosition_ = c.minimumPosition_ ∧
    (SDSM.dispatch R c Event.EV_BUTTON_SHORT_PRESS).maximumPosition_ = c.maximumPosition_ := by
  have hinv := reachable_invariant R c hr
  cases c
  simp only at hs
  subst hs
  simp [Invariant, calibratedRange, SDSM.dispatch, StateMachine.dispatch,
    StateMachine.changeStateTo, SDSM.s_operational, SDSM.s_paused, StateMachine.stopTimer,
    ledColor, ServoPot.positionServo, ServoPot.relativePosition] at *
  obtain ⟨-, h1, h2, h3⟩ := hinv
  subst h1 h2 h3
  split_ifs <;> norm_num

/-- Witness for C6: the concrete run, operational with the servo at 0.5. -/
theorem operational_short_press_pauses_witness :
    Reachable false exOperationalAt ∧
    exOperationalAt.currentState_ = some State.s_operational ∧
    (SDSM.dispatch false exOperationalAt Event.EV_BUTTON_SHORT_PRESS).currentState_ =
      some State.s_paused ∧
    (SDSM.dispatch false exOperationalAt Event.EV_BUTTON_SHORT_PRESS).currentLedColor =
      LedColor.LC_WHITE ∧
    (SDSM.dispatch false exOperationalAt Event.EV_BUTTON_SHORT_PRESS).servo =
      servoPuToDuty false exOperationalAt.minimumPosition_ :=
  have hs : exOperationalAt.currentState_ = some State.s_operational := by
    rw [exOperationalAt_eq]
  have h :=
    operational_short_press_pauses false exOperationalAt reachable_exOperationalAt hs
  ⟨reachable_exOperationalAt, hs, h.1, h.2.1, h.2.2.1⟩

/-! ## The knob gate -/

/-- Claim C7: in every reachable OPENING configuration with knob reading below 0.1 a short
press moves the machine to SETTING_MINIMUM, sets the indicator RED and writes the duty
servoPuToDuty(0.0), once, the mapper bounds staying at the full range. -/
theorem opening_short_press_starts_calibration (R : Bool) (c : Config) (hr : Reachable R c)
    (hs : c.currentState_ = some State.s_opening) (hk : c.potInput < 0.1) :
    (SDSM.dispatch R c Event.EV_BUTTON_SHORT_PRESS).currentState_ =
      some State.s_setting_minimum ∧
    (SDSM.dispatch R c Event.EV_BUTTON_SHORT_PRESS).currentLedColor = LedColor.LC_RED ∧
    (SDSM.dispatch R c Event.EV_BUTTON_SHORT_PRESS).servo = servoPuToDuty R 0.0 ∧
    (SDSM.dispatch R c Event.EV_BUTTON_SHORT_PRESS).trace =
      c.trace ++ [IOAct.handler State.s_opening Event.EV_BUTTON_SHORT_PRESS,
        IOAct.handler State.s_opening Event.EV_EXIT,
        IOAct.handler State.s_setting_minimum Event.EV_ENTRY,
        IOAct.ledWrite LedColor.LC_RED,
        IOAct.servoWrite (servoPuToDuty R 0.0)] ∧
    (SDSM.dispatch R c Event.EV_BUTTON_SHORT_PRESS).servoMin_ = 0.0 ∧
    (SDSM.dispatch R c Event.EV_BUTTON_SHORT_PRESS).servoMax_ = 1.0 ∧
    (SDSM.dispatch R c Event.EV_BUTTON_SHORT_PRESS).servoRange_ = 1.0 := by
  have hinv := reachable_invariant R c hr
  cases c
  simp only at hs hk
  subst hs
  simp [Invariant, fullRange, SDSM.dispatch, StateMachine.dispatch,
    StateMachine.changeStateTo, SDSM.s_opening, SDSM.s_setting_minimum, StateMachine.stopTimer,
    ledColor, ServoPot.positionServo, ServoPot.relativePosition, ServoPot.readPot, hk] at *
  obtain ⟨-, h1, h2, h3⟩ := hinv
  subst h1 h2 h3
  split_ifs <;> norm_num

/-- Witness for C7: after start-up, the knob at 0.05. -/
theorem opening_short_press_starts_calibration_witness :
    Reachable false exOpeningLow ∧
    exOpeningLow.currentState_ = some State.s_opening ∧
    exOpeningLow.potInput < 0.1 ∧
    (SDSM.dispatch false exOpeningLow Event.EV_BUTTON_SHORT_PRESS).currentState_ =
      some State.s_setting_minimum ∧
    (SDSM.dispatch false exOpeningLow Event.EV_BUTTON_SHORT_PRESS).currentLedColor =
      LedColor.LC_RED ∧
    (SDSM.dispatch false exOpeningLow Event.EV_BUTTON_SHORT_PRESS).servo =
      servoPuToDuty false 0.0 :=
  have hs : exOpeningLow.currentState_ = some State.s_opening := by
    rw [exOpeningLow_eq]
  have hk : exOpeningLow.potInput < 0.1 := by
    rw [exOpeningLow_eq]; norm_num
  have h :=
    opening_short_press_starts_calibration false exOpeningLow reachable_exOpeningLow hs hk
  ⟨reachable_exOpeningLow, hs, hk, h.1, h.2.1, h.2.2.1⟩

/-- Claim C8: in OPENING and in DRIVING_TO_MINIMUM, when the knob reading is at least 0.1, a
short press leaves the active state, the mapper bounds, the captured minimum and maximum and
the duty register unchanged and performs exactly one error flash: the indicator is set RED,
held 400 ms and set back, so the colour after the event is the colour before it, and no
duty is written.  This holds for every configuration in such a state, reachable or not. -/
theorem gated_short_press_error_flash (R : Bool) (c : Config) (s : State)
    (hs : c.currentState_ = some s)
    (hgate : s = State.s_opening ∨ s = State.s_driving_to_minimum)
    (hk : c.potInput ≥ 0.1) :
    (SDSM.dispatch R c Event.EV_BUTTON_SHORT_PRESS).currentState_ = some s ∧
    (SDSM.dispatch R c Event.EV_BUTTON_SHORT_PRESS).servoMin_ = c.servoMin_ ∧
    (SDSM.dispatch R c Event.EV_BUTTON_SHORT_PRESS).servoMax_ = c.servoMax_ ∧
    (SDSM.dispatch R c Event.EV_BUTTON_SHORT_PRESS).servoRange_ = c.servoRange_ ∧
    (SDSM.dispatch R c Event.EV_BUTTON_SHORT_PRESS).minimumPosition_ = c.minimumPosition_ ∧
    (SDSM.dispatch R c Event.EV_BUTTON_SHORT_PRESS).maximumPosition_ = c.maximumPosition_ ∧
    (SDSM.dispatch R c Event.EV_BUTTON_SHORT_PRESS).servo = c.servo ∧
    (SDSM.dispatch R c Event.EV_BUTTON_SHORT_PRESS).currentLedColor = c.currentLedColor ∧
    (SDSM.dispatch R c Event.EV_BUTTON_SHORT_PRESS).trace =
      c.trace ++ [IOAct.handler s Event.EV_BUTTON_SHORT_PRESS,
        IOAct.ledWrite LedColor.LC_RED, IOAct.sleep_for 400,
        IOAct.ledWrite c.currentLedColor] := by
  cases c
  simp only at hs hk
  subst hs
  have hk' : ¬ (_ : ℚ) < 0.1 := not_lt.mpr hk
  rcases hgate with h | h <;> subst h <;>
    simp [SDSM.dispatch, StateMachine.dispatch, SDSM.s_opening, SDSM.s_driving_to_minimum,
      errorFlash, ledColor, ServoPot.readPot, hk']

/-- Witness for C8: after start-up, the knob at 0.5. -/
theorem gated_short_press_error_flash_witness :
    exOpeningHigh.currentState_ = some State.s_opening ∧
    exOpeningHigh.potInput ≥ 0.1 ∧
    (SDSM.dispatch false exOpeningHigh Event.EV_BUTTON_SHORT_PRESS).currentState_ =
      some State.s_opening ∧
    (SDSM.dispatch false exOpeningHigh Event.EV_BUTTON_SHORT_PRESS).servo =
      exOpeningHigh.servo ∧
    (SDSM.dispatch false exOpeningHigh Event.EV_BUTTON_SHORT_PRESS).currentLedColor =
      exOpeningHigh.currentLedColor ∧
    (SDSM.dispatch false exOpeningHigh Event.EV_BUTTON_SHORT_PRESS).trace =
      exOpeningHigh.trace ++ [IOAct.handler State.s_opening Event.EV_BUTTON_SHORT_PRESS,
        IOAct.ledWrite LedColor.LC_RED, IOAct.sleep_for 400,
        IOAct.ledWrite exOpeningHigh.currentLedColor] :=
  have hs : exOpeningHigh.currentState_ = some State.s_opening := by
    rw [exOpeningHigh_eq]
  have hk : exOpeningHigh.potInput ≥ 0.1 := by
    rw [exOpeningHigh_eq]; norm_num
  have h :=
    gated_short_press_error_flash false exOpeningHigh State.s_opening hs (Or.inl rfl) hk
  ⟨hs, hk, h.1, h.2.2.2.2.2.2.1, h.2.2.2.2.2.2.2.1, h.2.2.2.2.2.2.2.2⟩

/-! ## The button debouncer -/

theorem exHeld_eq (ticks : Nat) :
    exHeld ticks =
      { exOpening with
        potInput := 1 / 20
        buttonInput := 0
        TickCount := ticks
        buttonDown_ := 100
        buttonDebouncingEnd_ := 110 } := by
  simp [exHeld, exOpening_eq, setInputs, SDSM.buttonDown, milliseconds, UINT32_MOD,
    BUTTON_DEBOUNCE_TIMEOUT]
  norm_num

/-- Claim C9: when buttonUp runs at time now with buttonDown_ = d, d at most now, outside
the debounce guard, it dispatches one event, to the configuration with the three timing
members updated: EV_BUTTON_LONG_PRESS if now - d exceeds 1000 and EV_BUTTON_SHORT_PRESS
otherwise; exactly one press event reaches a state handler. -/
theorem buttonUp_classifies_press (R : Bool) (c : Config) (s : State)
    (hs : c.currentState_ = some s) (hd : c.buttonDown_ ≤ milliseconds c)
    (hg : ¬ milliseconds c < c.buttonDebouncingEnd_) :
    SDSM.buttonUp R c =
      SDSM.dispatch R
        { c with
          buttonDebouncingEnd_ := (milliseconds c + BUTTON_DEBOUNCE_TIMEOUT) % UINT32_MOD
          buttonDown_ := 0
          buttonUp_ := milliseconds c }
        (if milliseconds c - c.buttonDown_ > 1000 then Event.EV_BUTTON_LONG_PRESS
         else Event.EV_BUTTON_SHORT_PRESS) ∧
    pressEvents (SDSM.buttonUp R c).trace =
      pressEvents c.trace ++
        [if milliseconds c - c.buttonDown_ > 1000 then Event.EV_BUTTON_LONG_PRESS
         else Event.EV_BUTTON_SHORT_PRESS] := by
  have hsub := uint32_sub_of_le (milliseconds c) c.buttonDown_ hd (milliseconds_lt c)
  have heq : SDSM.buttonUp R c =
      SDSM.dispatch R
        { c with
          buttonDebouncingEnd_ := (milliseconds c + BUTTON_DEBOUNCE_TIMEOUT) % UINT32_MOD
          buttonDown_ := 0
          buttonUp_ := milliseconds c }
        (if milliseconds c - c.buttonDown_ > 1000 then Event.EV_BUTTON_LONG_PRESS
         else Event.EV_BUTTON_SHORT_PRESS) := by
    simp only [SDSM.buttonUp, if_neg hg, hsub, BUTTON_SHORT_TIMEOUT]
    split_ifs <;> rfl
  refine ⟨heq, ?_⟩
  rw [heq]
  split_ifs
  · exact pressEvents_dispatch_long R _ s hs
  · exact pressEvents_dispatch_short R _ s hs

/-- Witness for C9: the button down at time 100 and up at 1099, 1100 and 1101, that is
after 999 ms (short), 1000 ms (short) and 1001 ms (long). -/
theorem buttonUp_classifies_press_witness :
    ((exHeld 1099).currentState_ = some State.s_opening ∧
      (exHeld 1099).buttonDown_ ≤ milliseconds (exHeld 1099) ∧
      ¬ milliseconds (exHeld 1099) < (exHeld 1099).buttonDebouncingEnd_ ∧
      pressEvents (SDSM.buttonUp false (exHeld 1099)).trace =
        pressEvents (exHeld 1099).trace ++ [Event.EV_BUTTON_SHORT_PRESS]) ∧
    ((exHeld 1100).currentState_ = some State.s_opening ∧
      (exHeld 1100).buttonDown_ ≤ milliseconds (exHeld 1100) ∧
      ¬ milliseconds (exHeld 1100) < (exHeld 1100).buttonDebouncingEnd_ ∧
      pressEvents (SDSM.buttonUp false (exHeld 1100)).trace =
        pressEvents (exHeld 1100).trace ++ [Event.EV_BUTTON_SHORT_PRESS]) ∧
    ((exHeld 1101).currentState_ = some State.s_opening ∧
      (exHeld 1101).buttonDown_ ≤ milliseconds (exHeld 1101) ∧
      ¬ milliseconds (exHeld 1101) < (exHeld 1101).buttonDebouncingEnd_ ∧
      pressEvents (SDSM.buttonUp false (exHeld 1101)).trace =
        pressEvents (exHeld 1101).trace ++ [Event.EV_BUTTON_LONG_PRESS]) := by
  have hs : ∀ t, (exHeld t).currentState_ = some State.s_opening := by
    intro t; rw [exHeld_eq, exOpening_eq]
  have hd : ∀ t, 100 ≤ t → t < UINT32_MOD →
      (exHeld t).buttonDown_ ≤ milliseconds (exHeld t) := by
    intro t h1 h2
    rw [exHeld_eq]
    simp only [milliseconds, Nat.mod_eq_of_lt h2]
    exact h1
  have hg : ∀ t, 110 ≤ t → t < UINT32_MOD →
      ¬ milliseconds (exHeld t) < (exHeld t).buttonDebouncingEnd_ := by
    intro t h1 h2
    rw [exHeld_eq]
    simp only [milliseconds, Nat.mod_eq_of_lt h2]
    exact not_lt.mpr h1
  have hm : ∀ t, t < UINT32_MOD →
      milliseconds (exHeld t) - (exHeld t).buttonDown_ = t - 100 := by
    intro t h2
    rw [exHeld_eq]
    simp only [milliseconds, Nat.mod_eq_of_lt h2]
  have h1 :=
    (buttonUp_classifies_press false (exHeld 1099) State.s_opening (hs _)
      (hd _ (by decide) (by decide)) (hg _ (by decide) (by decide))).2
  have h2 :=
    (buttonUp_classifies_press false (exHeld 1100) State.s_opening (hs _)
      (hd _ (by decide) (by decide)) (hg _ (by decide) (by decide))).2
  have h3 :=
    (buttonUp_classifies_press false (exHeld 1101) State.s_opening (hs _)
      (hd _ (by decide) (by decide)) (hg _ (by decide) (by decide))).2
  rw [hm _ (by decide)] at h1 h2 h3
  exact ⟨⟨hs _, hd _ (by decide) (by decide), hg _ (by decide) (by decide), h1⟩,
    ⟨hs _, hd _ (by decide) (by decide), hg _ (by decide) (by decide), h2⟩,
    ⟨hs _, hd _ (by decide) (by decide), hg _ (by decide) (by decide), h3⟩⟩

/-- Counterexample to C10 as stated: in a reachable configuration the sampled level differs
from lastButtonState_ while the clock (5) is before the guard deadline (10), and readButton
changes lastButtonState_. -/
theorem readButton_inside_guard_counterexample :
    Reachable false exBounce ∧
    buttonState exBounce ≠ exBounce.lastButtonState_ ∧
    milliseconds exBounce < exBounce.buttonDebouncingEnd_ ∧
    (SDSM.readButton false exBounce).lastButtonState_ ≠ exBounce.lastButtonState_ := by
  refine ⟨reachable_exBounce, ?_, ?_, ?_⟩
  · rw [exBounce_eq]; decide
  · rw [exBounce_eq]; decide
  · simp [exBounce_eq, SDSM.readButton, SDSM.buttonUp, SDSM.buttonDown, buttonState,
      milliseconds, UINT32_MOD, BUTTON_PRESSED]

/-- Claim C10, amended: when readButton samples a level different from lastButtonState_
while the clock is before buttonDebouncingEnd_, it sets lastButtonState_ to the sampled
level and changes nothing else: no event is dispatched (the trace is unchanged) and
buttonDown_, buttonUp_ and buttonDebouncingEnd_ keep their values. -/
theorem readButton_inside_guard (R : Bool) (c : Config)
    (hedge : buttonState c ≠ c.lastButtonState_)
    (hg : milliseconds c < c.buttonDebouncingEnd_) :
    SDSM.readButton R c = { c with lastButtonState_ := buttonState c } ∧
    (SDSM.readButton R c).trace = c.trace ∧
    (SDSM.readButton R c).buttonDown_ = c.buttonDown_ ∧
    (SDSM.readButton R c).buttonUp_ = c.buttonUp_ ∧
    (SDSM.readButton R c).buttonDebouncingEnd_ = c.buttonDebouncingEnd_ ∧
    (SDSM.readButton R c).lastButtonState_ = buttonState c := by
  have h : SDSM.readButton R c = { c with lastButtonState_ := buttonState c } := by
    simp only [SDSM.readButton, SDSM.buttonDown, SDSM.buttonUp, if_pos hg]
    simp [hedge]
  rw [h]
  exact ⟨rfl, rfl, rfl, rfl, rfl, rfl⟩

/-- Witness for the amended C10: the concrete bounce, 5 ms after an accepted edge. -/
theorem readButton_inside_guard_witness :
    buttonState exBounce ≠ exBounce.lastButtonState_ ∧
    milliseconds exBounce < exBounce.buttonDebouncingEnd_ ∧
    (SDSM.readButton false exBounce).trace = exBounce.trace ∧
    (SDSM.readButton false exBounce).buttonDebouncingEnd_ = exBounce.buttonDebouncingEnd_ ∧
    (SDSM.readButton false exBounce).lastButtonState_ = buttonState exBounce :=
  have hedge : buttonState exBounce ≠ exBounce.lastButtonState_ := by
    rw [exBounce_eq]; decide
  have hg : milliseconds exBounce < exBounce.buttonDebouncingEnd_ := by
    rw [exBounce_eq]; decide
  have h := readButton_inside_guard false exBounce hedge hg
  ⟨hedge, hg, h.2.1, h.2.2.2.2.1, h.2.2.2.2.2⟩

/-! ## Auxiliary lemmas for the observers -/

theorem servoWrites_append (t u : List IOAct) :
    servoWrites (t ++ u) = servoWrites t ++ servoWrites u := by
  induction t with
  | nil => simp [servoWrites]
  | cons a t ih => cases a <;> simp [servoWrites, ih]

theorem handlerCalls_append (t u : List IOAct) :
    handlerCalls (t ++ u) = handlerCalls t ++ handlerCalls u := by
  induction t with
  | nil => simp [handlerCalls]
  | cons a t ih => cases a <;> simp [handlerCalls, ih]

theorem captureLog_append (t u : List IOAct) :
    captureLog (t ++ u) = CaptureLog.run (captureLog t) u := by
  simp [captureLog, CaptureLog.run, List.foldl_append]

/-! ### Every duty stays in the drive window -/

theorem captureInvariant_dispatch (R : Bool) (c : Config) (ev : Event)
    (h : CaptureInvariant c) : CaptureInvariant (StateMachine.dispatch R c ev) := by
  cases c with
  | mk potInput buttonInput TickCount servo redLed greenLed blueLed currentLedColor servoMin_
      servoMax_ servoRange_ currentPosition_ currentPot_ lastPot timeout_ currentState_
      buttonDown_ buttonUp_ lastButtonState_ buttonDebouncingEnd_ minimumPosition_
      maximumPosition_ trace =>
  rcases currentState_ with _ | s
  · simp [CaptureInvariant] at h
  · cases s <;> cases ev <;>
      simp [CaptureInvariant, StateMachine.dispatch,
        StateMachine.changeStateTo, SDSM.s_opening, SDSM.s_setting_minimum,
        SDSM.s_setting_maximum, SDSM.s_driving_to_minimum, SDSM.s_operational, SDSM.s_paused,
        StateMachine.stopTimer, ledColor, errorFlash, ServoPot.reset, ServoPot.positionServo,
        ServoPot.setServoFromPot, ServoPot.readPot, ServoPot.setServoMinimum,
        ServoPot.setServoMaximum, ServoPot.relativePosition, ServoPot.servoPuPosition,
        captureLog_append, CaptureLog.run, CaptureLog.step,
        apply_ite Config.trace, apply_ite Config.currentState_] at *
    all_goals try split_ifs
    all_goals try simp_all [captureLog_append, CaptureLog.run, CaptureLog.step]

theorem captureInvariant_boot (R : Bool) (pre : Config) : CaptureInvariant (boot R pre) := by
  simp [boot, StateMachine.initialize, initializeIO, SDSM.ctor, ServoPot.ctor,
    CaptureInvariant, StateMachine.dispatch, SDSM.s_opening, ledColor, ServoPot.reset,
    ServoPot.positionServo, ServoPot.relativePosition, captureLog, CaptureLog.run,
    CaptureLog.step, apply_ite Config.trace, apply_ite Config.currentState_]

theorem captureInvariant_tick (R : Bool) (c : Config) (h : CaptureInvariant c) :
    CaptureInvariant (StateMachine.tick R c) := by
  unfold StateMachine.tick
  split_ifs
  · exact h
  · exact captureInvariant_dispatch R c Event.EV_TIMER h
  · exact h

theorem captureInvariant_readButton (R : Bool) (c : Config) (h : CaptureInvariant c) :
    CaptureInvariant (SDSM.readButton R c) := by
  have hdown : CaptureInvariant (SDSM.buttonDown c) := by
    simp only [SDSM.buttonDown]
    split_ifs
    · exact h
    · exact h
  have hup : CaptureInvariant (SDSM.buttonUp R c) := by
    simp only [SDSM.buttonUp, SDSM.dispatch]
    split_ifs
    · exact h
    · exact captureInvariant_dispatch R _ _ h
    · exact captureInvariant_dispatch R _ _ h
  unfold SDSM.readButton
  split_ifs
  · exact hdown
  · exact hup
  · exact h

theorem reachable_captureInvariant (R : Bool) (c : Config) (h : Reachable R c) :
    CaptureInvariant c := by
  induction h with
  | boot pre => exact captureInvariant_boot R pre
  | inputs c pot pin ticks _ ih => exact ih
  | tick c _ ih => exact captureInvariant_tick R c ih
  | readButton c _ ih => exact captureInvariant_readButton R c ih
  | poll c _ ih => exact captureInvariant_dispatch R c _ ih
  | shortPress c _ ih => exact captureInvariant_dispatch R c _ ih
  | longPress c _ ih => exact captureInvariant_dispatch R c _ ih

/-! ### Polling twice, and the mapper calls -/

theorem setServoFromPot_of_eq (R : Bool) (c : Config) (h : c.potInput = c.lastPot) :
    ServoPot.setServoFromPot R c = { c with currentPot_ := c.potInput } := by
  simp [ServoPot.setServoFromPot, ServoPot.readPot, h]

theorem setServoFromPot_frame (R : Bool) (c : Config) :
    (ServoPot.setServoFromPot R c).potInput = c.potInput ∧
    (ServoPot.setServoFromPot R c).lastPot = c.potInput ∧
    (ServoPot.setServoFromPot R c).currentState_ = c.currentState_ := by
  simp only [ServoPot.setServoFromPot, ServoPot.readPot, ServoPot.positionServo]
  split_ifs with h1 h2
  · exact ⟨rfl, rfl, rfl⟩
  · exact ⟨rfl, rfl, rfl⟩
  · exact ⟨rfl, (not_not.mp h1).symm, rfl⟩

theorem dispatch_poll_operational (R : Bool) (c : Config)
    (hs : c.currentState_ = some State.s_operational) :
    StateMachine.dispatch R c Event.EV_POLL =
      ServoPot.setServoFromPot R
        { c with trace := c.trace ++ [IOAct.handler State.s_operational Event.EV_POLL] } := by
  cases c
  simp only at hs
  subst hs
  simp [StateMachine.dispatch, SDSM.s_operational]

theorem poll_twice_operational (R : Bool) (c : Config)
    (hs : c.currentState_ = some State.s_operational) :
    servoWrites
        (StateMachine.dispatch R (StateMachine.dispatch R c Event.EV_POLL) Event.EV_POLL).trace =
      servoWrites (StateMachine.dispatch R c Event.EV_POLL).trace ∧
    (StateMachine.dispatch R (StateMachine.dispatch R c Event.EV_POLL) Event.EV_POLL).servo =
      (StateMachine.dispatch R c Event.EV_POLL).servo := by
  have h1 := dispatch_poll_operational R c hs
  obtain ⟨hp, hl, hst⟩ := setServoFromPot_frame R
    { c with trace := c.trace ++ [IOAct.handler State.s_operational Event.EV_POLL] }
  rw [← h1] at hp hl hst
  have h2 := dispatch_poll_operational R (StateMachine.dispatch R c Event.EV_POLL)
    (hst.trans hs)
  have heq :
      ({ StateMachine.dispatch R c Event.EV_POLL with
          trace := (StateMachine.dispatch R c Event.EV_POLL).trace ++
            [IOAct.handler State.s_operational Event.EV_POLL] } : Config).potInput =
      ({ StateMachine.dispatch R c Event.EV_POLL with
          trace := (StateMachine.dispatch R c Event.EV_POLL).trace ++
            [IOAct.handler State.s_operational Event.EV_POLL] } : Config).lastPot :=
    hp.trans hl.symm
  rw [h2, setServoFromPot_of_eq R _ heq]
  simp [servoWrites_append, servoWrites]

theorem runMapper_range (c : Config) (calls : List MapperCall)
    (h : c.servoRange_ = c.servoMax_ - c.servoMin_) :
    (runMapper c calls).servoRange_ =
      (runMapper c calls).servoMax_ - (runMapper c calls).servoMin_ := by
  induction calls generalizing c with
  | nil => exact h
  | cons call rest ih =>
    simp only [runMapper, List.foldl_cons]
    apply ih
    cases call <;>
      simp [MapperCall.run, ServoPot.reset, ServoPot.setServoMinimum,
        ServoPot.setServoMaximum]
    norm_num

/-! ## The debouncer over several samples -/

/-- Claim C11, evaluated at its failing input: after start-up readButton sees the level the
code calls pressed (buttonState = BUTTON_PRESSED) from 2000 to 2100, which it classifies
SHORT, and again from 2105, five milliseconds after that release was accepted; the release
at 2200 is classified LONG although this second press was held for 95 ms. -/
theorem guard_dropped_press_classified_long :
    (runButton false exOpening [(2000, 1), (2100, 0)]).lastButtonState_ = BUTTON_RELEASED ∧
    pressEvents (runButton false exOpening [(2000, 1), (2100, 0)]).trace =
      [Event.EV_BUTTON_SHORT_PRESS] ∧
    (runButton false exOpening [(2000, 1), (2100, 0), (2105, 1)]).lastButtonState_ =
      BUTTON_PRESSED ∧
    (runButton false exOpening [(2000, 1), (2100, 0), (2105, 1)]).buttonDown_ = 0 ∧
    pressEvents (runButton false exOpening [(2000, 1), (2100, 0), (2105, 1)]).trace =
      [Event.EV_BUTTON_SHORT_PRESS] ∧
    pressEvents (runButton false exOpening bounceSamples).trace =
      [Event.EV_BUTTON_SHORT_PRESS, Event.EV_BUTTON_LONG_PRESS] := by
  simp [runButton, bounceSamples, exOpening_eq, setInputs, SDSM.readButton, SDSM.buttonDown,
    SDSM.buttonUp, buttonState, milliseconds, UINT32_MOD, BUTTON_PRESSED, BUTTON_RELEASED,
    BUTTON_DEBOUNCE_TIMEOUT, BUTTON_SHORT_TIMEOUT, SDSM.dispatch, StateMachine.dispatch,
    StateMachine.changeStateTo, SDSM.s_opening, SDSM.s_setting_minimum,
    StateMachine.stopTimer, ledColor, ServoPot.reset, ServoPot.positionServo,
    ServoPot.readPot, ServoPot.relativePosition, pressEvents]
  all_goals try norm_num
  all_goals try decide

/-- Claim C12, evaluated at its failing input: after start-up the pin reads 1 (released) at
time 0, 0 (pressed) from 50 to 3000 and 1 afterwards.  The first sample dispatches nothing;
the sample at 50, where the pin changes to pressed, dispatches EV_BUTTON_SHORT_PRESS; the
sample at 3000, where the pin changes from pressed to released, dispatches nothing and
leaves the trace as it was. -/
theorem press_edge_dispatches_release_edge_does_not :
    (runButton false exOpening [(0, 1)]).trace = exOpening.trace ∧
    pressEvents (runButton false exOpening [(0, 1)]).trace = [] ∧
    pressEvents (runButton false exOpening [(0, 1), (50, 0)]).trace =
      [Event.EV_BUTTON_SHORT_PRESS] ∧
    (runButton false exOpening pressSamples).trace =
      (runButton false exOpening [(0, 1), (50, 0)]).trace := by
  simp [runButton, pressSamples, exOpening_eq, setInputs, SDSM.readButton, SDSM.buttonDown,
    SDSM.buttonUp, buttonState, milliseconds, UINT32_MOD, BUTTON_PRESSED, BUTTON_RELEASED,
    BUTTON_DEBOUNCE_TIMEOUT, BUTTON_SHORT_TIMEOUT, SDSM.dispatch, StateMachine.dispatch,
    StateMachine.changeStateTo, SDSM.s_opening, SDSM.s_setting_minimum,
    StateMachine.stopTimer, ledColor, ServoPot.reset, ServoPot.positionServo,
    ServoPot.readPot, ServoPot.relativePosition, pressEvents]
  all_goals try norm_num
  all_goals try decide

/-! ## Polling with an unchanged knob -/

/-- Claim C13: in OPENING, DRIVING_TO_MINIMUM, OPERATIONAL and PAUSED an EV_POLL whose knob
reading equals the value of the last sample (lastPot; required in OPERATIONAL only, the
other three states ignore EV_POLL whatever the reading) issues no servo.write and leaves the
duty, the active state, the mapper bounds and the indicator unchanged.  In these states a
second EV_POLL with the knob where the first one found it writes nothing either.  This
holds for every configuration in such a state, reachable or not. -/
theorem poll_unchanged_knob_no_command (R : Bool) (c : Config) (s : State)
    (hs : c.currentState_ = some s)
    (hstate : s = State.s_opening ∨ s = State.s_driving_to_minimum ∨
      s = State.s_operational ∨ s = State.s_paused) :
    ((s = State.s_operational → c.potInput = c.lastPot) →
      (SDSM.dispatch R c Event.EV_POLL).trace = c.trace ++ [IOAct.handler s Event.EV_POLL] ∧
      servoWrites (SDSM.dispatch R c Event.EV_POLL).trace = servoWrites c.trace ∧
      (SDSM.dispatch R c Event.EV_POLL).servo = c.servo ∧
      (SDSM.dispatch R c Event.EV_POLL).currentState_ = some s ∧
      (SDSM.dispatch R c Event.EV_POLL).servoMin_ = c.servoMin_ ∧
      (SDSM.dispatch R c Event.EV_POLL).servoMax_ = c.servoMax_ ∧
      (SDSM.dispatch R c Event.EV_POLL).servoRange_ = c.servoRange_ ∧
      (SDSM.dispatch R c Event.EV_POLL).currentLedColor = c.currentLedColor ∧
      (SDSM.dispatch R c Event.EV_POLL).redLed = c.redLed ∧
      (SDSM.dispatch R c Event.EV_POLL).greenLed = c.greenLed ∧
      (SDSM.dispatch R c Event.EV_POLL).blueLed = c.blueLed) ∧
    servoWrites (SDSM.dispatch R (SDSM.dispatch R c Event.EV_POLL) Event.EV_POLL).trace =
      servoWrites (SDSM.dispatch R c Event.EV_POLL).trace ∧
    (SDSM.dispatch R (SDSM.dispatch R c Event.EV_POLL) Event.EV_POLL).servo =
      (SDSM.dispatch R c Event.EV_POLL).servo := by
  refine ⟨?_, ?_⟩
  · intro hk
    cases c
    simp only at hs hk
    subst hs
    rcases hstate with h | h | h | h <;> subst h <;>
      simp [SDSM.dispatch, StateMachine.dispatch, SDSM.s_opening, SDSM.s_driving_to_minimum,
        SDSM.s_operational, SDSM.s_paused, ServoPot.setServoFromPot, ServoPot.readPot,
        servoWrites_append, servoWrites] at *
    simp [hk, servoWrites_append, servoWrites]
  · rcases hstate with h | h | h | h
    · subst h
      cases c
      simp only at hs
      subst hs
      simp [SDSM.dispatch, StateMachine.dispatch, SDSM.s_opening, servoWrites_append,
        servoWrites]
    · subst h
      cases c
      simp only at hs
      subst hs
      simp [SDSM.dispatch, StateMachine.dispatch, SDSM.s_driving_to_minimum,
        servoWrites_append, servoWrites]
    · subst h
      exact poll_twice_operational R c hs
    · subst h
      cases c
      simp only at hs
      subst hs
      simp [SDSM.dispatch, StateMachine.dispatch, SDSM.s_paused, servoWrites_append,
        servoWrites]

/-- Witness for C13: the concrete run, operational, polled again with the knob still at
0.5. -/
theorem poll_unchanged_knob_no_command_witness :
    exOperationalAt.currentState_ = some State.s_operational ∧
    exOperationalAt.potInput = exOperationalAt.lastPot ∧
    servoWrites (SDSM.dispatch false exOperationalAt Event.EV_POLL).trace =
      servoWrites exOperationalAt.trace ∧
    (SDSM.dispatch false exOperationalAt Event.EV_POLL).servo = exOperationalAt.servo ∧
    (SDSM.dispatch false exOperationalAt Event.EV_POLL).currentState_ =
      some State.s_operational :=
  have hs : exOperationalAt.currentState_ = some State.s_operational := by
    rw [exOperationalAt_eq]
  have hk : exOperationalAt.potInput = exOperationalAt.lastPot := by
    rw [exOperationalAt_eq]
  have h :=
    (poll_unchanged_knob_no_command false exOperationalAt State.s_operational hs
      (Or.inr (Or.inr (Or.inl rfl)))).1 (fun _ => hk)
  ⟨hs, hk, h.2.1, h.2.2.1, h.2.2.2.1⟩

/-! ## The transition protocol -/

/-- Claim C14: changeStateTo with the current state is a no-op; with another state it
dispatches EV_EXIT to the old state (which here only records the call), clears the timer,
installs the new state and dispatches EV_ENTRY to it: afterwards the new state is current,
timeout_ is 0, and the handler calls made are exactly the exit of the old state followed by
the entry of the new one. -/
theorem changeStateTo_protocol (R : Bool) (c : Config) (old next : State)
    (hs : c.currentState_ = some old) :
    (next = old → StateMachine.changeStateTo R c next = c) ∧
    (next ≠ old →
      StateMachine.changeStateTo R c next =
        StateMachine.dispatch R
          { StateMachine.stopTimer (StateMachine.dispatch R c Event.EV_EXIT) with
            currentState_ := some next }
          Event.EV_ENTRY ∧
      StateMachine.dispatch R c Event.EV_EXIT =
        { c with trace := c.trace ++ [IOAct.handler old Event.EV_EXIT] } ∧
      (StateMachine.changeStateTo R c next).currentState_ = some next ∧
      (StateMachine.changeStateTo R c next).timeout_ = 0 ∧
      handlerCalls (StateMachine.changeStateTo R c next).trace =
        handlerCalls c.trace ++ [(old, Event.EV_EXIT), (next, Event.EV_ENTRY)]) := by
  cases c
  simp only at hs
  subst hs
  constructor
  · intro h
    subst h
    simp [StateMachine.changeStateTo]
  · intro h
    have h' : ¬ (some next = some old) := by simpa using h
    cases old <;> cases next <;>
      simp [StateMachine.changeStateTo, StateMachine.dispatch, SDSM.s_opening,
        SDSM.s_setting_minimum, SDSM.s_setting_maximum, SDSM.s_driving_to_minimum,
        SDSM.s_operational, SDSM.s_paused, StateMachine.stopTimer, ledColor, ServoPot.reset,
        ServoPot.positionServo, ServoPot.setServoMinimum, ServoPot.setServoMaximum,
        ServoPot.relativePosition, handlerCalls_append, handlerCalls,
        apply_ite Config.trace, apply_ite Config.currentState_,
        apply_ite Config.timeout_] at *

/-- Witness for C14: the concrete run while setting the minimum, changed to setting the
maximum, and changed to the state it is in. -/
theorem changeStateTo_protocol_witness :
    exSettingMinimum.currentState_ = some State.s_setting_minimum ∧
    StateMachine.changeStateTo false exSettingMinimum State.s_setting_minimum =
      exSettingMinimum ∧
    (StateMachine.changeStateTo false exSettingMinimum State.s_setting_maximum).currentState_ =
      some State.s_setting_maximum ∧
    (StateMachine.changeStateTo false exSettingMinimum State.s_setting_maximum).timeout_ = 0 ∧
    handlerCalls
        (StateMachine.changeStateTo false exSettingMinimum State.s_setting_maximum).trace =
      handlerCalls exSettingMinimum.trace ++
        [(State.s_setting_minimum, Event.EV_EXIT), (State.s_setting_maximum, Event.EV_ENTRY)] :=
  have hs : exSettingMinimum.currentState_ = some State.s_setting_minimum := by
    rw [exSettingMinimum_eq]
  have h1 :=
    (changeStateTo_protocol false exSettingMinimum State.s_setting_minimum
      State.s_setting_minimum hs).1 rfl
  have h2 :=
    (changeStateTo_protocol false exSettingMinimum State.s_setting_minimum
      State.s_setting_maximum hs).2 (by decide)
  ⟨hs, h1, h2.2.2.1, h2.2.2.2.1, h2.2.2.2.2⟩

/-! ## The position mapper -/

/-- Claim C15: after the constructor and any sequence of reset, setServoMinimum and
setServoMaximum calls the cached servoRange_ equals servoMax_ - servoMin_, so
relativePosition(pu) = pu * (servoMax_ - servoMin_) + servoMin_ for every pu; nothing is
clamped: with the inverted bounds 2 and 1 the position 0 maps to 2, outside [0, 1]. -/
theorem relativePosition_after_mapper_calls :
    (∀ (pre : Config) (calls : List MapperCall) (pu : ℚ),
      (runMapper (ServoPot.ctor pre) calls).servoRange_ =
        (runMapper (ServoPot.ctor pre) calls).servoMax_ -
          (runMapper (ServoPot.ctor pre) calls).servoMin_ ∧
      ServoPot.relativePosition (runMapper (ServoPot.ctor pre) calls) pu =
        pu * ((runMapper (ServoPot.ctor pre) calls).servoMax_ -
            (runMapper (ServoPot.ctor pre) calls).servoMin_) +
          (runMapper (ServoPot.ctor pre) calls).servoMin_) ∧
    (runMapper (ServoPot.ctor zeroConfig)
        [MapperCall.setServoMinimum 2, MapperCall.setServoMaximum 1]).servoMax_ <
      (runMapper (ServoPot.ctor zeroConfig)
        [MapperCall.setServoMinimum 2, MapperCall.setServoMaximum 1]).servoMin_ ∧
    1 < ServoPot.relativePosition
      (runMapper (ServoPot.ctor zeroConfig)
        [MapperCall.setServoMinimum 2, MapperCall.setServoMaximum 1]) 0 := by
  refine ⟨?_, ?_, ?_⟩
  · intro pre calls pu
    have h := runMapper_range (ServoPot.ctor pre) calls (by
      simp [ServoPot.ctor, ServoPot.reset]; norm_num)
    exact ⟨h, by simp only [ServoPot.relativePosition, h]⟩
  · simp [runMapper, MapperCall.run, ServoPot.ctor, ServoPot.reset, ServoPot.setServoMinimum,
      ServoPot.setServoMaximum]
  · simp [runMapper, MapperCall.run, ServoPot.ctor, ServoPot.reset, ServoPot.setServoMinimum,
      ServoPot.setServoMaximum, ServoPot.relativePosition]

/-- Claim C16: in every reachable SETTING_MINIMUM or SETTING_MAXIMUM configuration the
mapper bounds are the full range (servoMin_ = 0.0, servoMax_ = 1.0, servoRange_ = 1.0), so
an EV_POLL whose knob reading k differs from lastPot writes the duty servoPuToDuty(k),
once, and the state stays. -/
theorem setting_poll_drives_directly (R : Bool) (c : Config) (s : State)
    (hr : Reachable R c) (hs : c.currentState_ = some s)
    (hset : s = State.s_setting_minimum ∨ s = State.s_setting_maximum)
    (hk : c.potInput ≠ c.lastPot) :
    c.servoMin_ = 0.0 ∧ c.servoMax_ = 1.0 ∧ c.servoRange_ = 1.0 ∧
    ServoPot.relativePosition c c.potInput = c.potInput ∧
    (SDSM.dispatch R c Event.EV_POLL).servo = servoPuToDuty R c.potInput ∧
    (SDSM.dispatch R c Event.EV_POLL).trace =
      c.trace ++ [IOAct.handler s Event.EV_POLL,
        IOAct.servoWrite (servoPuToDuty R c.potInput)] ∧
    (SDSM.dispatch R c Event.EV_POLL).currentState_ = some s := by
  have hinv := reachable_invariant R c hr
  cases c
  simp only at hs hk
  subst hs
  rcases hset with h | h <;> subst h <;>
    simp [Invariant, fullRange, SDSM.dispatch, StateMachine.dispatch, SDSM.s_setting_minimum,
      SDSM.s_setting_maximum, ServoPot.setServoFromPot, ServoPot.readPot,
      ServoPot.positionServo, ServoPot.relativePosition, hk,
      apply_ite Config.servo, apply_ite Config.trace, apply_ite Config.currentState_] at * <;>
    obtain ⟨-, h1, h2, h3⟩ := hinv <;>
    subst h1 h2 h3 <;>
    norm_num

/-- Witness for C16: the concrete run calibrated to 0.2 and 0.8, then a long press and a
short press: setting the minimum again, the knob turned to 0.3. -/
theorem setting_poll_drives_directly_witness :
    Reachable false exRecalibrating ∧
    exRecalibrating.currentState_ = some State.s_setting_minimum ∧
    exRecalibrating.potInput ≠ exRecalibrating.lastPot ∧
    exRecalibrating.servoRange_ = 1.0 ∧
    (SDSM.dispatch false exRecalibrating Event.EV_POLL).servo =
      servoPuToDuty false exRecalibrating.potInput := by
  have hr : Reachable false exRecalibrating :=
    Reachable.inputs _ _ _ _
      (Reachable.shortPress _
        (Reachable.inputs _ _ _ _ (Reachable.longPress _ reachable_exPaused)))
  have hs : exRecalibrating.currentState_ = some State.s_setting_minimum := by
    simp [exRecalibrating, exPaused_eq, setInputs, SDSM.dispatch, StateMachine.dispatch,
      StateMachine.changeStateTo, SDSM.s_opening, SDSM.s_setting_minimum, SDSM.s_paused,
      StateMachine.stopTimer, ledColor, ServoPot.reset, ServoPot.positionServo,
      ServoPot.readPot, ServoPot.relativePosition, apply_ite Config.currentState_]
    norm_num
  have hk : exRecalibrating.potInput ≠ exRecalibrating.lastPot := by
    simp [exRecalibrating, exPaused_eq, setInputs, SDSM.dispatch, StateMachine.dispatch,
      StateMachine.changeStateTo, SDSM.s_opening, SDSM.s_setting_minimum, SDSM.s_paused,
      StateMachine.stopTimer, ledColor, ServoPot.reset, ServoPot.positionServo,
      ServoPot.readPot, ServoPot.relativePosition, apply_ite Config.lastPot]
    norm_num
  have h :=
    setting_poll_drives_directly false exRecalibrating State.s_setting_minimum hr hs
      (Or.inl rfl) hk
  exact ⟨hr, hs, hk, h.2.2.1, h.2.2.2.2.1⟩

/-- Claim C17: for every pair of bounds min and max with max different from min, installed
by setServoMinimum and setServoMaximum, and every pu, the map
y -> (y - min) / (max - min) applied to relativePosition(pu) gives pu back (exact
arithmetic). -/
theorem relativePosition_round_trip (c : Config) (min max pu : ℚ) (hne : max ≠ min) :
    (ServoPot.setServoMaximum (ServoPot.setServoMinimum c min) max).servoMin_ = min ∧
    (ServoPot.setServoMaximum (ServoPot.setServoMinimum c min) max).servoMax_ = max ∧
    (ServoPot.relativePosition
        (ServoPot.setServoMaximum (ServoPot.setServoMinimum c min) max) pu - min) /
      (max - min) = pu := by
  have h : max - min ≠ 0 := sub_ne_zero.mpr hne
  refine ⟨rfl, rfl, ?_⟩
  simp only [ServoPot.relativePosition, ServoPot.setServoMaximum, ServoPot.setServoMinimum]
  field_simp

/-- Witness for C17: the bounds 0.2 and 0.8 and the position 0.5. -/
theorem relativePosition_round_trip_witness :
    (0.8 : ℚ) ≠ 0.2 ∧
    (ServoPot.relativePosition
        (ServoPot.setServoMaximum (ServoPot.setServoMinimum zeroConfig 0.2) 0.8) 0.5 - 0.2) /
      (0.8 - 0.2) = 0.5 :=
  have hne : (0.8 : ℚ) ≠ 0.2 := by norm_num
  ⟨hne, (relativePosition_round_trip zeroConfig 0.2 0.8 0.5 hne).2.2⟩

/-! ## Safety of the drive signal -/

set_option maxRecDepth 100000

/-- Claim C19: the constructor of SDSM leaves minimumPosition_ and maximumPosition_ as they
were, and in every reachable configuration every entry action of DRIVING_TO_MINIMUM so far
ran after a short press in SETTING_MINIMUM assigned minimumPosition_, and every entry
action of OPERATIONAL ran after both members were assigned, each since the entry action of
OPENING last ran; in SETTING_MAXIMUM the minimum, and in DRIVING_TO_MINIMUM, OPERATIONAL
and PAUSED both, are assigned in the current cycle. -/
theorem captured_positions_read_after_capture (R : Bool) (c : Config)
    (hr : Reachable R c) :
    (captureLog c.trace).readsDefined = true ∧
    (c.currentState_ = some State.s_setting_maximum →
      (captureLog c.trace).minWritten = true) ∧
    (c.currentState_ = some State.s_driving_to_minimum ∨
      c.currentState_ = some State.s_operational ∨
      c.currentState_ = some State.s_paused →
      (captureLog c.trace).minWritten = true ∧ (captureLog c.trace).maxWritten = true) ∧
    (∀ pre : Config,
      (SDSM.ctor pre).minimumPosition_ = pre.minimumPosition_ ∧
      (SDSM.ctor pre).maximumPosition_ = pre.maximumPosition_) := by
  obtain ⟨h1, h2⟩ := reachable_captureInvariant R c hr
  refine ⟨h1, ?_, ?_, fun pre => ⟨rfl, rfl⟩⟩
  · intro h
    rw [h] at h2
    exact h2
  · rintro (h | h | h) <;> rw [h] at h2 <;> exact h2

/-- Witness for C19: the concrete run up to the pause. -/
theorem captured_positions_read_after_capture_witness :
    Reachable false exPaused ∧
    (captureLog exPaused.trace).readsDefined = true ∧
    (captureLog exPaused.trace).minWritten = true ∧
    (captureLog exPaused.trace).maxWritten = true :=
  have hs : exPaused.currentState_ = some State.s_paused := by
    rw [exPaused_eq]
  have h := captured_positions_read_after_capture false exPaused reachable_exPaused
  ⟨reachable_exPaused, h.1, (h.2.2.1 (Or.inr (Or.inr hs))).1,
    (h.2.2.1 (Or.inr (Or.inr hs))).2⟩

/-! ## Duty and normalized position -/

/-- Claim C20: servoDutyToPu is the two-sided inverse of servoPuToDuty, with REVERSE_MOTION
off and on, and after positionServo(pos) the member servoPuPosition returns
relativePosition(pos), the normalized position that was passed through servoPuToDuty to
the servo. -/
theorem servoDutyToPu_inverse_of_servoPuToDuty :
    (∀ (R : Bool) (pu : ℚ), servoDutyToPu R (servoPuToDuty R pu) = pu) ∧
    (∀ (R : Bool) (duty : ℚ), servoPuToDuty R (servoDutyToPu R duty) = duty) ∧
    (∀ (R : Bool) (c : Config) (pos : ℚ),
      ServoPot.servoPuPosition R (ServoPot.positionServo R c pos) =
        ServoPot.relativePosition c pos) := by
  refine ⟨servoDutyToPu_servoPuToDuty, ?_, ?_⟩
  · intro R duty
    cases R <;>
      norm_num [servoDutyToPu, servoPuToDuty, SERVO_PWM_SCALE, SERVO_PWM_MIN_PU,
        SERVO_PWM_MAX_PU]
  · intro R c pos
    simp [ServoPot.servoPuPosition, ServoPot.positionServo, apply_ite Config.servo,
      servoDutyToPu_servoPuToDuty]

end ServoDrill
